import Mathlib

/-!
Shallow embedding of the model-routing and agentic-orchestration core of the
Kai personal-assistant backend, together with proofs about it.

Source files embedded:
- backend/app/core/model_router.py: `ModelTier`, default routing tables,
  `RoutingConfig`, `ModelRouter`, `CostTracker`
- backend/app/core/chat.py: `ChatHandler._call_claude`,
  `ChatHandler._execute_chain`, `ChatHandler.process_message` (persistence-
  and ledger-relevant parts)

Modelling conventions:
- Python dictionaries are association lists (`List (κ × α)`) with `List.lookup`
  for `d[k]` / `k in d`, `dictSet` for `d[k] = v`, and `dictMerge` for
  `{**a, **b}`.
- Python exceptions are `Except PyErr`; `KeyError`, `ValueError` and
  `anthropic.APIError` are the constructors of `PyErr`.
- `str.lower()/.upper()/.strip()` are `py_lower/py_upper/py_strip` (character
  maps over the string data, as CPython does for ASCII identifiers used here).
- The regular-expression engine (`re`) is external; a compiled-pattern search
  `re.search(p, s)` is an oracle parameter `reMatch : String → String → Bool`
  applied to the pattern source string and the subject string. The pattern
  lists themselves are embedded verbatim as their source strings.
- Wall-clock time (`datetime.utcnow()`) is a `Nat` of seconds passed in
  explicitly; `timedelta(minutes=5)` is `300`, `timedelta(days=1)` is `86400`,
  and the calendar date of a timestamp (`created_at.date()`) is `t / 86400`.
- The generative backend (`anthropic` client) is an oracle
  `Backend : Nat → BackendReply` giving the response to the i-th API call of a
  run; the tool dispatcher is an oracle `ToolExec`.
- Monetary floats are embedded as exact rationals `ℚ`.
-/

/-! ## Python-style string and dictionary helpers -/

/-- Model of Python `str.lower()` for the ASCII strings used by the router. -/
def py_lower (s : String) : String := ⟨s.data.map Char.toLower⟩

/-- Model of Python `str.upper()` for the ASCII strings used by the router. -/
def py_upper (s : String) : String := ⟨s.data.map Char.toUpper⟩

/-- Model of Python `str.strip()`: drop whitespace from both ends. -/
def py_strip (s : String) : String :=
  ⟨((s.data.dropWhile Char.isWhitespace).reverse.dropWhile Char.isWhitespace).reverse⟩

/-- Python `d[k] = v` on an association list: replace in place or append. -/
def dictSet {κ α : Type} [BEq κ] : List (κ × α) → κ → α → List (κ × α)
  | [], k, v => [(k, v)]
  | (k', v') :: rest, k, v =>
    if k' == k then (k, v) :: rest else (k', v') :: dictSet rest k v

/-- Python `{**base, **override}`: override wins key by key. -/
def dictMerge {α : Type} (base override : List (String × α)) : List (String × α) :=
  base.filter (fun kv => !(override.any (fun kv' => kv'.1 == kv.1))) ++ override

/-- Python `x or default` for an optional string (`None` and `""` are falsy). -/
def pyOrStr (o : Option String) (d : String) : String :=
  match o with
  | some s => if s.isEmpty then d else s
  | none => d

/-- Python `history[-4:]` (and `history[-n:]` generally). -/
def takeLast {α : Type} (n : Nat) (l : List α) : List α :=
  (l.reverse.take n).reverse

/-! ## model_router.py: ModelTier -/

/-- `class ModelTier(Enum)`: the three quality/cost tiers. -/
inductive ModelTier where
  | HAIKU
  | SONNET
  | OPUS
deriving DecidableEq

/-- The `Enum` member values: concrete backend model identifiers. -/
def ModelTier.value : ModelTier → String
  | .HAIKU => "claude-3-5-haiku-20241022"
  | .SONNET => "claude-sonnet-4-20250514"
  | .OPUS => "claude-opus-4-20250514"

/-- The `Enum` member names, as in `tier.name`. -/
def ModelTier.pyName : ModelTier → String
  | .HAIKU => "HAIKU"
  | .SONNET => "SONNET"
  | .OPUS => "OPUS"

/-- Python `ModelTier[name]`: lookup by member name; `none` means `KeyError`. -/
def tierOfName : String → Option ModelTier
  | "HAIKU" => some ModelTier.HAIKU
  | "SONNET" => some ModelTier.SONNET
  | "OPUS" => some ModelTier.OPUS
  | _ => none

/-- Python `ModelTier(v)`: lookup by member value; `none` means `ValueError`. -/
def tierOfValue (s : String) : Option ModelTier :=
  if s == ModelTier.HAIKU.value then some ModelTier.HAIKU
  else if s == ModelTier.SONNET.value then some ModelTier.SONNET
  else if s == ModelTier.OPUS.value then some ModelTier.OPUS
  else none

/-- Python exceptions raised by the embedded code. -/
inductive PyErr where
  | apiError (msg : String)
  | keyError (key : String)
  | valueError (v : String)
  | indexError
deriving DecidableEq

/-! ## model_router.py: default routing tables -/

/-- `DEFAULT_TASK_ROUTING` -/
def DEFAULT_TASK_ROUTING : List (String × String) :=
  [("greeting", "haiku"),
   ("simple_lookup", "haiku"),
   ("confirmation", "haiku"),
   ("basic_crud", "haiku"),
   ("status_check", "haiku"),
   ("calendar_query", "haiku"),
   ("reminder_query", "haiku"),
   ("calendar_create", "sonnet"),
   ("reminder_create", "sonnet"),
   ("note_create", "sonnet"),
   ("email_draft", "sonnet"),
   ("standard_tool_use", "sonnet"),
   ("daily_briefing", "sonnet"),
   ("travel_time", "sonnet"),
   ("schedule_optimization", "opus"),
   ("weekly_review", "opus"),
   ("meeting_summary", "opus"),
   ("complex_analysis", "opus"),
   ("decision_support", "opus"),
   ("pattern_learning", "opus"),
   ("conflict_resolution", "opus"),
   ("email_triage", "opus"),
   ("project_status", "opus"),
   ("explain_reasoning", "opus")]

/-- `DEFAULT_TOOL_ROUTING` -/
def DEFAULT_TOOL_ROUTING : List (String × String) :=
  [("get_calendar_events", "haiku"),
   ("get_reminders", "haiku"),
   ("get_note", "haiku"),
   ("search_notes", "haiku"),
   ("get_read_later_list", "haiku"),
   ("get_weather", "haiku"),
   ("complete_reminder", "haiku"),
   ("get_travel_time", "haiku"),
   ("create_calendar_event", "sonnet"),
   ("update_calendar_event", "sonnet"),
   ("create_reminder", "sonnet"),
   ("create_note", "sonnet"),
   ("draft_email_reply", "sonnet"),
   ("save_for_later", "sonnet"),
   ("create_follow_up", "sonnet"),
   ("send_push_notification", "sonnet"),
   ("propose_schedule_optimization", "opus"),
   ("generate_weekly_review", "opus"),
   ("generate_daily_briefing", "sonnet"),
   ("explain_reasoning", "opus"),
   ("triage_emails", "opus"),
   ("get_project_status", "opus"),
   ("get_meeting_prep", "opus"),
   ("get_meeting_summary", "opus")]

/-- `DEFAULT_PATTERNS["haiku"]`: the regex source strings, verbatim. -/
def DEFAULT_PATTERNS_HAIKU : List String :=
  ["what time",
   "what\x27?s on my calendar",
   "do i have any (meetings|events|reminders)",
   "read (back|me) (the|my)",
   "list my",
   "show me",
   "how many",
   "is there a",
   "when is",
   "where is",
   "confirm",
   "yes|no|ok|okay|sure|thanks|thank you",
   "cancel that",
   "never\\s?mind",
   "^(hi|hey|hello|good morning|good afternoon)$"]

/-- `DEFAULT_PATTERNS["opus"]`: the regex source strings, verbatim. -/
def DEFAULT_PATTERNS_OPUS : List String :=
  ["optimi[zs]e my (schedule|calendar|day|week)",
   "reorgani[zs]e",
   "what should i prioriti[zs]e",
   "help me (decide|think through|figure out)",
   "analy[zs]e",
   "why did you",
   "explain your reasoning",
   "what patterns",
   "review my (week|month|progress)",
   "suggest.*(strategy|approach|plan)",
   "complex|complicated|nuanced",
   "trade.?offs?",
   "compare.*(options|approaches)",
   "what do you think",
   "advice"]

/-- A chain step as written in `DEFAULT_CHAINS`: a plain dict. -/
abbrev ChainStepDict := List (String × String)

/-- A chain config: description plus ordered step dicts. -/
structure ChainConfig where
  description : String
  steps : List ChainStepDict
deriving DecidableEq

/-- `DEFAULT_CHAINS` -/
def DEFAULT_CHAINS : List (String × ChainConfig) :=
  [("classify_execute_synthesize_chain",
    { description := "Haiku classifies intent, Sonnet executes tools, Opus synthesizes response",
      steps :=
        [[("model", "haiku"), ("purpose", "classify"), ("prompt_template", "classify_intent")],
         [("model", "sonnet"), ("purpose", "execute"), ("prompt_template", "execute_tools")],
         [("model", "opus"), ("purpose", "synthesize"), ("prompt_template", "synthesize_response")]] }),
   ("transcribe_summarize_chain",
    { description := "Process meeting: Sonnet structures transcript, Opus generates insights",
      steps :=
        [[("model", "sonnet"), ("purpose", "structure"), ("prompt_template", "structure_transcript")],
         [("model", "opus"), ("purpose", "synthesize"), ("prompt_template", "meeting_insights")]] }),
   ("analyze_optimize_chain",
    { description := "Haiku gathers data, Opus analyzes and optimizes",
      steps :=
        [[("model", "haiku"), ("purpose", "gather"), ("prompt_template", "gather_schedule_data")],
         [("model", "opus"), ("purpose", "analyze"), ("prompt_template", "optimize_schedule")]] }),
   ("classify_triage_chain",
    { description := "Haiku does initial sort, Sonnet categorizes, Opus prioritizes",
      steps :=
        [[("model", "haiku"), ("purpose", "classify"), ("prompt_template", "initial_email_sort")],
         [("model", "sonnet"), ("purpose", "categorize"), ("prompt_template", "categorize_emails")],
         [("model", "opus"), ("purpose", "prioritize"), ("prompt_template", "prioritize_actions")]] })]

/-! ## model_router.py: RoutingConfig -/

/-- The merged routing-configuration dictionary produced by
`RoutingConfig.get_config` / `get_config_async`. -/
structure RoutingCfg where
  task_routing : List (String × String)
  tool_routing : List (String × String)
  patterns_haiku : List String
  patterns_opus : List String
  default_model : String
  enable_chaining : Bool
  chain_configs : List String
  cost_limit_daily : Option ℚ
  prefer_speed : Bool
  prefer_quality : Bool
deriving DecidableEq

/-- The defaults dictionary built when there is no stored row
(`RoutingConfig.get_config`, both branches of `get_config_async`). -/
def default_config : RoutingCfg :=
  { task_routing := DEFAULT_TASK_ROUTING,
    tool_routing := DEFAULT_TOOL_ROUTING,
    patterns_haiku := DEFAULT_PATTERNS_HAIKU,
    patterns_opus := DEFAULT_PATTERNS_OPUS,
    default_model := "sonnet",
    enable_chaining := true,
    chain_configs := [],
    cost_limit_daily := none,
    prefer_speed := false,
    prefer_quality := false }

/-- A `RoutingSettings` database row (models/preferences.py). -/
structure RoutingSettings where
  task_routing : List (String × String)
  tool_routing : List (String × String)
  custom_patterns_haiku : List String
  custom_patterns_opus : List String
  default_model : Option String
  enable_chaining : Bool
  chain_configs : List String
  cost_limit_daily : Option ℚ
  prefer_speed : Bool
  prefer_quality : Bool
deriving DecidableEq

/-- A fresh `RoutingSettings(user_id=...)` row with the column defaults
declared in models/preferences.py. -/
def default_settings_row : RoutingSettings :=
  { task_routing := [],
    tool_routing := [],
    custom_patterns_haiku := [],
    custom_patterns_opus := [],
    default_model := some "sonnet",
    enable_chaining := true,
    chain_configs := [],
    cost_limit_daily := none,
    prefer_speed := false,
    prefer_quality := false }

/-- The merged view of defaults plus a stored row
(`get_config_async`, row-found branch). -/
def merged_config (s : RoutingSettings) : RoutingCfg :=
  { task_routing := dictMerge DEFAULT_TASK_ROUTING s.task_routing,
    tool_routing := dictMerge DEFAULT_TOOL_ROUTING s.tool_routing,
    patterns_haiku := DEFAULT_PATTERNS_HAIKU ++ s.custom_patterns_haiku,
    patterns_opus := DEFAULT_PATTERNS_OPUS ++ s.custom_patterns_opus,
    default_model := pyOrStr s.default_model "sonnet",
    enable_chaining := s.enable_chaining,
    chain_configs := s.chain_configs,
    cost_limit_daily :=
      match s.cost_limit_daily with
      | some q => if q == 0 then none else some q
      | none => none,
    prefer_speed := s.prefer_speed,
    prefer_quality := s.prefer_quality }

/-- The configuration `get_config_async` computes from the store. -/
def config_of_store : Option RoutingSettings → RoutingCfg
  | some s => merged_config s
  | none => default_config

/-- `RoutingConfig` instance state: `self._cache` and `self._cache_time`. -/
structure RCState where
  cache : Option RoutingCfg
  cache_time : Option Nat
deriving DecidableEq

/-- `self._cache_ttl = timedelta(minutes=5)`, in seconds. -/
def cacheTtl : Nat := 300

/-- `RoutingConfig.get_config` (the sync version): serves whatever is cached,
never consulting the clock or the store; populates the cache with the
process-wide defaults when empty. -/
def get_config (st : RCState) : RoutingCfg × RCState :=
  match st.cache with
  | some c => (c, st)
  | none => (default_config, { st with cache := some default_config })

/-- The fetch-and-cache tail of `RoutingConfig.get_config_async`. -/
def fetch_config (store : Option RoutingSettings) (now : Nat) : RoutingCfg × RCState :=
  (config_of_store store,
   { cache := some (config_of_store store), cache_time := some now })

/-- `RoutingConfig.get_config_async`: serve the cache while fresh, else
re-fetch from the store and merge. -/
def get_config_async (store : Option RoutingSettings) (now : Nat) (st : RCState) :
    RoutingCfg × RCState :=
  match st.cache, st.cache_time with
  | some c, some t => if now - t < cacheTtl then (c, st) else fetch_config store now
  | some _, none => fetch_config store now
  | none, _ => fetch_config store now

/-- `RoutingConfig.update_config`: write the updates to the stored row
(creating it if missing), drop the cache, and re-read. The `setattr` loop is
modelled as a row transformer. Returns (new store, returned config, new state). -/
def update_config (store : Option RoutingSettings)
    (updates : RoutingSettings → RoutingSettings) (now : Nat) (st : RCState) :
    Option RoutingSettings × RoutingCfg × RCState :=
  let row := updates (store.getD default_settings_row)
  let cleared : RCState := { cache := none, cache_time := st.cache_time }
  let out := get_config_async (some row) now cleared
  (some row, out.1, out.2)

/-! ## model_router.py: ModelRouter -/

/-- `ModelTier[name.upper()]`, as an `Except`: unknown names raise `KeyError`. -/
def tierFromName (name : String) : Except PyErr ModelTier :=
  match tierOfName (py_upper name) with
  | some t => Except.ok t
  | none => Except.error (PyErr.keyError (py_upper name))

/-- Python truthiness of the optional `task_type` combined with the
`task_type in cfg["task_routing"]` membership test: the routed tier name,
when the branch is taken. -/
def taskRouted (cfg : RoutingCfg) (task_type : Option String) : Option String :=
  match task_type with
  | some tt => if tt.isEmpty then none else List.lookup tt cfg.task_routing
  | none => none

/-- A content block of a backend response (`response.content`). -/
inductive MBlock where
  | text (t : String)
  | tool_use (id : String) (name : String) (input : String)
deriving DecidableEq

/-- A `tool_result` entry fed back to the backend. -/
structure MToolResult where
  tool_use_id : String
  content : String
deriving DecidableEq

/-- One conversation message as passed to the Claude API. -/
inductive MContent where
  | text (s : String)
  | blocks (bs : List MBlock)
  | toolResults (rs : List MToolResult)
deriving DecidableEq

/-- A message dict in a running conversation list. -/
structure ChatMsg where
  role : String
  content : MContent
deriving DecidableEq

/-- `ModelRouter._should_escalate`: escalation trigger regex source strings. -/
def escalation_triggers : List String :=
  ["i\x27m not sure",
   "it\x27s complicated",
   "there\x27s a conflict",
   "multiple options",
   "what would you recommend",
   "this is important",
   "high priority",
   "urgent"]

/-- `ModelRouter._should_escalate`: scan the last 4 history messages for a
trigger in a user turn. Stored history contents are plain strings; non-text
contents cannot match. -/
def should_escalate (reMatch : String → String → Bool) (history : List ChatMsg) : Bool :=
  (takeLast 4 history).any fun msg =>
    msg.role == "user" &&
      (match msg.content with
       | MContent.text c => escalation_triggers.any fun p => reMatch p (py_lower c)
       | _ => false)

/-- `ModelRouter._route_by_tools`: collect the tiers named by the routed
tools and take the strongest. -/
def route_by_tools (tools : List String) (cfg : RoutingCfg) : Option ModelTier :=
  let tiers_needed := tools.filterMap fun tool => List.lookup tool cfg.tool_routing
  if tiers_needed.contains "opus" then some ModelTier.OPUS
  else if tiers_needed.contains "sonnet" then some ModelTier.SONNET
  else if tiers_needed.contains "haiku" then some ModelTier.HAIKU
  else none

/-- `ModelRouter._select_base`: task routing, then tool routing, else SONNET.
The `message` argument is accepted and ignored, as in the source. -/
def select_base (cfg : RoutingCfg) (message : String) (task_type : Option String)
    (tools : List String) : Except PyErr ModelTier :=
  match taskRouted cfg task_type with
  | some name => tierFromName name
  | none =>
    if !tools.isEmpty then
      match route_by_tools tools cfg with
      | some t => Except.ok t
      | none => Except.ok ModelTier.SONNET
    else Except.ok ModelTier.SONNET

/-- Python `task_type in l` for an optional task type (`None` is never in). -/
def optContains (o : Option String) (l : List String) : Bool :=
  match o with
  | some s => l.contains s
  | none => false

/-- The `critical_tasks` allow-list of `_select_with_speed_bias`. -/
def critical_tasks : List String :=
  ["schedule_optimization", "decision_support", "meeting_summary"]

/-- `ModelRouter._select_with_speed_bias`. -/
def select_with_speed_bias (cfg : RoutingCfg) (message : String)
    (task_type : Option String) (tools : List String) : Except PyErr ModelTier := do
  let base ← select_base cfg message task_type tools
  if base = ModelTier.OPUS then
    if !optContains task_type critical_tasks then pure ModelTier.SONNET
    else pure base
  else pure base

/-- The `upgrade_tasks` allow-list of `_select_with_quality_bias`. -/
def upgrade_tasks : List String :=
  ["email_draft", "note_create", "daily_briefing"]

/-- `ModelRouter._select_with_quality_bias`. -/
def select_with_quality_bias (cfg : RoutingCfg) (message : String)
    (task_type : Option String) (tools : List String) : Except PyErr ModelTier := do
  let base ← select_base cfg message task_type tools
  if base = ModelTier.HAIKU then pure ModelTier.SONNET
  else if base = ModelTier.SONNET then
    if optContains task_type upgrade_tasks then pure ModelTier.OPUS
    else pure base
  else pure base

/-- `ModelRouter.select_model` over a configuration snapshot `cfg` and the
regex oracle `reMatch`. -/
def select_model (reMatch : String → String → Bool) (cfg : RoutingCfg)
    (message : String) (conversation_history : List ChatMsg)
    (pending_tools : List String) (task_type : Option String)
    (force_tier : Option ModelTier) : Except PyErr ModelTier :=
  match force_tier with
  | some t => Except.ok t
  | none =>
    if cfg.prefer_speed then select_with_speed_bias cfg message task_type pending_tools
    else if cfg.prefer_quality then select_with_quality_bias cfg message task_type pending_tools
    else
      match taskRouted cfg task_type with
      | some tier_name => tierFromName tier_name
      | none =>
        match (if !pending_tools.isEmpty then route_by_tools pending_tools cfg else none) with
        | some tool_tier => Except.ok tool_tier
        | none =>
          let message_lower := py_strip (py_lower message)
          if cfg.patterns_opus.any (fun p => reMatch p message_lower) then
            Except.ok ModelTier.OPUS
          else if cfg.patterns_haiku.any (fun p => reMatch p message_lower) then
            Except.ok ModelTier.HAIKU
          else if !conversation_history.isEmpty
              && should_escalate reMatch conversation_history then
            Except.ok ModelTier.OPUS
          else tierFromName cfg.default_model

/-- The fixed task-to-chain map inside `ModelRouter.should_use_chain`. -/
def chain_tasks : List (String × String) :=
  [("meeting_summary", "transcribe_summarize_chain"),
   ("schedule_optimization", "analyze_optimize_chain"),
   ("email_triage", "classify_triage_chain"),
   ("complex_query", "classify_execute_synthesize_chain")]

/-- `ModelRouter.should_use_chain`. The `message` argument is accepted and
ignored, as in the source. -/
def should_use_chain (cfg : RoutingCfg) (message : String)
    (task_type : Option String) : Option String :=
  if !cfg.enable_chaining then none
  else
    match task_type with
    | none => none
    | some tt =>
      if tt.isEmpty then none
      else
        match List.lookup tt chain_tasks with
        | none => none
        | some chain_name =>
          if cfg.chain_configs.contains chain_name
              || (List.lookup chain_name DEFAULT_CHAINS).isSome then
            some chain_name
          else none

/-! ## model_router.py: CostTracker -/

/-- A `ModelUsage` database row (models/preferences.py), the Usage Ledger
fact. `created_at` is seconds since the epoch. -/
structure ModelUsage where
  model_tier : String
  input_tokens : Nat
  output_tokens : Nat
  task_type : Option String
  latency_ms : Option Nat
  created_at : Nat
deriving DecidableEq

/-- `CostTracker.COSTS`: per-1000-token (input, output) prices. -/
def COSTS : ModelTier → ℚ × ℚ
  | ModelTier.HAIKU => ((0.00025 : ℚ), (0.00125 : ℚ))
  | ModelTier.SONNET => ((0.003 : ℚ), (0.015 : ℚ))
  | ModelTier.OPUS => ((0.015 : ℚ), (0.075 : ℚ))

/-- `CostTracker._calculate_cost`. -/
def calculate_cost (tier : ModelTier) (input_tokens output_tokens : Nat) : ℚ :=
  ((input_tokens : ℚ) / 1000) * (COSTS tier).1 + ((output_tokens : ℚ) / 1000) * (COSTS tier).2

/-- `CostTracker.record_usage`: append one immutable `ModelUsage` row. -/
def record_usage (db : List ModelUsage) (tier : ModelTier)
    (input_tokens output_tokens : Nat) (task_type : Option String) (now : Nat) :
    List ModelUsage :=
  db ++ [{ model_tier := py_lower tier.pyName,
           input_tokens := input_tokens,
           output_tokens := output_tokens,
           task_type := task_type,
           latency_ms := none,
           created_at := now }]

/-- Per-tier bucket of a usage summary (`summary["by_model"][name]`). -/
structure TierBucket where
  requests : Nat
  input_tokens : Nat
  output_tokens : Nat
  cost : ℚ
deriving DecidableEq

/-- Per-task bucket of a usage summary (`summary["by_task"][task]`). -/
structure TaskBucket where
  requests : Nat
  cost : ℚ
deriving DecidableEq

/-- `summary["totals"]`. -/
structure UsageTotals where
  requests : Nat
  input_tokens : Nat
  output_tokens : Nat
  cost : ℚ
  avg_latency_ms : Nat
deriving DecidableEq

/-- The dict returned by `CostTracker.get_usage_summary`. -/
structure UsageSummary where
  period : String
  start : Nat
  endTime : Nat
  by_model : List (String × TierBucket)
  by_task : List (String × TaskBucket)
  totals : UsageTotals
deriving DecidableEq

/-- The window start for a summary period; any unknown period falls back to
the one-day window. -/
def period_start (period : String) (now : Nat) : Nat :=
  if period == "day" then now - 86400
  else if period == "week" then now - 604800
  else if period == "month" then now - 2592000
  else now - 86400

/-- Accumulator threaded through the `for usage in usages` loop of
`get_usage_summary`. -/
structure SummAcc where
  by_model : List (String × TierBucket)
  by_task : List (String × TaskBucket)
  totals_requests : Nat
  totals_input : Nat
  totals_output : Nat
  totals_cost : ℚ
  latencies : List Nat
deriving DecidableEq

/-- Update `summary["by_model"]` for one usage row. -/
def bump_model (l : List (String × TierBucket)) (name : String)
    (u : ModelUsage) (c : ℚ) : List (String × TierBucket) :=
  match List.lookup name l with
  | none =>
    l ++ [(name, { requests := 1, input_tokens := u.input_tokens,
                   output_tokens := u.output_tokens, cost := c })]
  | some b =>
    dictSet l name { requests := b.requests + 1,
                     input_tokens := b.input_tokens + u.input_tokens,
                     output_tokens := b.output_tokens + u.output_tokens,
                     cost := b.cost + c }

/-- Update `summary["by_task"]` for one usage row. -/
def bump_task (l : List (String × TaskBucket)) (task : String) (c : ℚ) :
    List (String × TaskBucket) :=
  match List.lookup task l with
  | none => l ++ [(task, { requests := 1, cost := c })]
  | some b => dictSet l task { requests := b.requests + 1, cost := b.cost + c }

/-- One iteration of the `get_usage_summary` aggregation loop;
`ModelTier[usage.model_tier.upper()]` raises `KeyError` on a foreign tier
name. `if usage.latency_ms:` treats both `None` and `0` as falsy. -/
def summary_step (acc : SummAcc) (u : ModelUsage) : Except PyErr SummAcc :=
  match tierOfName (py_upper u.model_tier) with
  | none => Except.error (PyErr.keyError (py_upper u.model_tier))
  | some tier =>
    let c := calculate_cost tier u.input_tokens u.output_tokens
    let task := pyOrStr u.task_type "unknown"
    Except.ok
      { by_model := bump_model acc.by_model tier.pyName u c,
        by_task := bump_task acc.by_task task c,
        totals_requests := acc.totals_requests + 1,
        totals_input := acc.totals_input + u.input_tokens,
        totals_output := acc.totals_output + u.output_tokens,
        totals_cost := acc.totals_cost + c,
        latencies := acc.latencies ++
          (match u.latency_ms with
           | some lat => if lat ≠ 0 then [lat] else []
           | none => []) }

/-- Package a finished accumulator as the summary dict. -/
def summary_of_acc (period : String) (start now : Nat) (acc : SummAcc) : UsageSummary :=
  { period := period, start := start, endTime := now,
    by_model := acc.by_model, by_task := acc.by_task,
    totals := { requests := acc.totals_requests,
                input_tokens := acc.totals_input,
                output_tokens := acc.totals_output,
                cost := acc.totals_cost,
                avg_latency_ms :=
                  if acc.latencies.isEmpty then 0
                  else acc.latencies.sum / acc.latencies.length } }

/-- `CostTracker.get_usage_summary`. -/
def get_usage_summary (db : List ModelUsage) (period : String) (now : Nat) :
    Except PyErr UsageSummary :=
  let start := period_start period now
  let usages := db.filter fun u => decide (start ≤ u.created_at)
  (usages.foldlM summary_step
      { by_model := [], by_task := [], totals_requests := 0, totals_input := 0,
        totals_output := 0, totals_cost := 0, latencies := [] }).map
    fun acc => summary_of_acc period start now acc

/-- One row of `CostTracker.get_daily_costs`; `date` is the calendar-day
index of the bucket. -/
structure DailyEntry where
  date : Nat
  haiku : ℚ
  sonnet : ℚ
  opus : ℚ
  total : ℚ
deriving DecidableEq

/-- Seconds per calendar day. -/
def secondsPerDay : Nat := 86400

/-- `usage.created_at.date()`: the calendar date of a timestamp. -/
def dateOf (t : Nat) : Nat := t / secondsPerDay

/-- `daily[day][tier.name.lower()] += cost; daily[day]["total"] += cost`. -/
def daily_add (e : DailyEntry) (tier : ModelTier) (c : ℚ) : DailyEntry :=
  match tier with
  | ModelTier.HAIKU => { e with haiku := e.haiku + c, total := e.total + c }
  | ModelTier.SONNET => { e with sonnet := e.sonnet + c, total := e.total + c }
  | ModelTier.OPUS => { e with opus := e.opus + c, total := e.total + c }

/-- One iteration of the `for usage in usages` loop of `get_daily_costs`,
bucketing into the `daily` dict keyed by calendar date. -/
def daily_step (acc : List (Nat × DailyEntry)) (u : ModelUsage) :
    Except PyErr (List (Nat × DailyEntry)) :=
  match tierOfName (py_upper u.model_tier) with
  | none => Except.error (PyErr.keyError (py_upper u.model_tier))
  | some tier =>
    let day := dateOf u.created_at
    let c := calculate_cost tier u.input_tokens u.output_tokens
    match List.lookup day acc with
    | none =>
      Except.ok (acc ++
        [(day, daily_add { date := day, haiku := 0, sonnet := 0, opus := 0, total := 0 } tier c)])
    | some e => Except.ok (dictSet acc day (daily_add e tier c))

/-- The sort relation of `sorted(daily.values(), key=lambda x: x["date"])`. -/
def daily_le (a b : DailyEntry) : Prop := a.date ≤ b.date

instance : DecidableRel daily_le := fun a b => Nat.decLe a.date b.date

instance : IsTotal DailyEntry daily_le := ⟨fun a b => Nat.le_total a.date b.date⟩

instance : IsTrans DailyEntry daily_le := ⟨fun _ _ _ => Nat.le_trans⟩

/-- `CostTracker.get_daily_costs`: filter the window, bucket by calendar
date, and return the buckets sorted by date (the Python `sorted` builtin is a stable
sort, modelled by insertion sort). -/
def get_daily_costs (db : List ModelUsage) (days : Nat) (now : Nat) :
    Except PyErr (List DailyEntry) :=
  let start := now - days * secondsPerDay
  let usages := db.filter fun u => decide (start ≤ u.created_at)
  (usages.foldlM daily_step []).map
    fun daily => (daily.map Prod.snd).insertionSort daily_le

/-- Number of entries of a daily-costs result (`0` when it raised). -/
def dailyLen (r : Except PyErr (List DailyEntry)) : Nat :=
  match r with
  | Except.ok l => l.length
  | Except.error _ => 0

/-! ## chat.py: ChatHandler orchestration loop -/

/-- `response.usage` of one backend call. -/
structure ApiUsage where
  input_tokens : Nat
  output_tokens : Nat
deriving DecidableEq

/-- One backend response (`client.messages.create` result). -/
structure BackendResponse where
  stop_reason : String
  content : List MBlock
  usage : ApiUsage
deriving DecidableEq

/-- Outcome of one backend call: a response, or a raised `anthropic.APIError`. -/
inductive BackendReply where
  | ok (r : BackendResponse)
  | apiError (msg : String)

/-- The generative-backend oracle: the reply to the i-th API call of a run. -/
def Backend : Type := Nat → BackendReply

/-- The tool-dispatcher oracle: `tool_executor.execute(name, input)`,
already serialized to the string fed back as a tool result. The dispatcher
never raises; failures are structured error payloads inside the string. -/
def ToolExec : Type := String → String → String

/-- An entry of `all_tool_calls`. -/
structure ToolCall where
  id : String
  name : String
  input : String
deriving DecidableEq

/-- A `Message` row persisted via `ChatHandler.save_message`. -/
structure PersistedMsg where
  role : String
  content : String
  model_used : Option String
  tool_calls : Option (List ToolCall)
deriving DecidableEq

/-- A `ModelUsage` row appended by `cost_tracker.record_usage` during a run
(the fields the loop supplies). -/
structure LedgerRecord where
  tier : ModelTier
  input_tokens : Nat
  output_tokens : Nat
  task_type : String
deriving DecidableEq

/-- The mutable state of one `_call_claude` run, plus the database effects
(`persisted`, `ledger`, `activities`) and the number of backend calls made. -/
structure LoopState where
  current_messages : List ChatMsg
  all_tool_calls : List ToolCall
  total_input : Nat
  total_output : Nat
  ledger : List LedgerRecord
  persisted : List PersistedMsg
  activities : List (String × Bool)
  calls : Nat

/-- The dict `_call_claude` (and `_execute_chain`) returns. -/
structure CallResult where
  content : String
  model : String
  tool_calls : List ToolCall
  input_tokens : Nat
  output_tokens : Nat
deriving DecidableEq

/-- The fixed fallback returned when `max_iterations` is exhausted. -/
def fallbackMessage : String :=
  "I apologize, but I wasn\x27t able to complete this request. Please try again or simplify your request."

/-- `ChatHandler._is_reversible_action`. -/
def reversible_tools : List String :=
  ["create_calendar_event",
   "update_calendar_event",
   "delete_calendar_event",
   "create_reminder",
   "complete_reminder",
   "create_note",
   "create_project",
   "create_follow_up",
   "save_for_later",
   "update_user_preference"]

/-- `ChatHandler._is_reversible_action`. -/
def is_reversible_action (tool_name : String) : Bool :=
  reversible_tools.contains tool_name

/-- What the `for block in response.content` loop of the tool-use branch
produces, in block order. -/
structure BlockOut where
  assistant_content : List MBlock
  tool_calls : List ToolCall
  tool_results : List MToolResult
  activities : List (String × Bool)

/-- The tool-use branch block loop: text blocks join the assistant content;
each `tool_use` block is recorded, executed through the dispatcher, and its
result and audit entry collected. -/
def processBlocks (tx : ToolExec) : List MBlock → BlockOut
  | [] => { assistant_content := [], tool_calls := [], tool_results := [], activities := [] }
  | MBlock.text t :: rest =>
    let o := processBlocks tx rest
    { o with assistant_content := MBlock.text t :: o.assistant_content }
  | MBlock.tool_use i n inp :: rest =>
    let o := processBlocks tx rest
    { assistant_content := MBlock.tool_use i n inp :: o.assistant_content,
      tool_calls := { id := i, name := n, input := inp } :: o.tool_calls,
      tool_results := { tool_use_id := i, content := tx n inp } :: o.tool_results,
      activities := ("tool:" ++ n, is_reversible_action n) :: o.activities }

/-- The final-response extraction: concatenate the text blocks. -/
def finalText : List MBlock → String
  | [] => ""
  | MBlock.text t :: rest => t ++ finalText rest
  | MBlock.tool_use _ _ _ :: rest => finalText rest

/-- The body of `ChatHandler._call_claude` with `fuel` iterations remaining:
call the backend; record tokens to the Usage Ledger; on `tool_use`, execute
the tools, extend the running message list, and loop; on a plain response,
persist the single assistant turn and return; on `APIError`, log and re-raise;
with no fuel left, return the fixed fallback without persisting. -/
def call_claude_aux (backend : Backend) (tx : ToolExec) (model : ModelTier) :
    Nat → LoopState → LoopState × Except PyErr CallResult
  | 0, st =>
    (st, Except.ok { content := fallbackMessage, model := model.value,
                     tool_calls := st.all_tool_calls,
                     input_tokens := st.total_input, output_tokens := st.total_output })
  | fuel + 1, st =>
    match backend st.calls with
    | BackendReply.apiError e =>
      ({ st with calls := st.calls + 1,
                 activities := st.activities ++ [("error:api", false)] },
       Except.error (PyErr.apiError e))
    | BackendReply.ok resp =>
      let st1 : LoopState :=
        { st with calls := st.calls + 1,
                  total_input := st.total_input + resp.usage.input_tokens,
                  total_output := st.total_output + resp.usage.output_tokens,
                  ledger := st.ledger ++
                    [{ tier := model, input_tokens := resp.usage.input_tokens,
                       output_tokens := resp.usage.output_tokens, task_type := "chat" }] }
      if resp.stop_reason == "tool_use" then
        let po := processBlocks tx resp.content
        call_claude_aux backend tx model fuel
          { st1 with
              all_tool_calls := st1.all_tool_calls ++ po.tool_calls,
              activities := st1.activities ++ po.activities,
              current_messages := st1.current_messages ++
                [{ role := "assistant", content := MContent.blocks po.assistant_content },
                 { role := "user", content := MContent.toolResults po.tool_results }] }
      else
        let ft := finalText resp.content
        ({ st1 with persisted := st1.persisted ++
             [{ role := "assistant", content := ft, model_used := some model.value,
                tool_calls := if st1.all_tool_calls.isEmpty then none
                              else some st1.all_tool_calls }] },
         Except.ok { content := ft, model := model.value,
                     tool_calls := st1.all_tool_calls,
                     input_tokens := st1.total_input, output_tokens := st1.total_output })

/-- `ChatHandler._call_claude` starting from a given backend-call offset
(used when chain steps share one backend oracle). -/
def call_claude_from (backend : Backend) (tx : ToolExec) (model : ModelTier)
    (messages : List ChatMsg) (max_iterations : Nat)
    (persisted0 : List PersistedMsg) (calls0 : Nat) :
    LoopState × Except PyErr CallResult :=
  call_claude_aux backend tx model max_iterations
    { current_messages := messages, all_tool_calls := [], total_input := 0,
      total_output := 0, ledger := [], persisted := persisted0,
      activities := [], calls := calls0 }

/-- `ChatHandler._call_claude` (default `max_iterations=10` is passed by the
callers modelled here). -/
def call_claude (backend : Backend) (tx : ToolExec) (model : ModelTier)
    (messages : List ChatMsg) (max_iterations : Nat)
    (persisted0 : List PersistedMsg) : LoopState × Except PyErr CallResult :=
  call_claude_from backend tx model messages max_iterations persisted0 0

/-! ## chat.py: ChatHandler._execute_chain -/

/-- Accumulator of `_execute_chain`: the shared context dict, running totals,
and the database effects threaded through the steps. -/
structure ChainAcc where
  context : List (String × String)
  total_input : Nat
  total_output : Nat
  all_tool_calls : List ToolCall
  persisted : List PersistedMsg
  calls : Nat

/-- `json.dumps(context)` rendering used inside a step prompt (opaque to all
properties proved here). -/
def dumpContext (ctx : List (String × String)) : String :=
  "\x7b" ++ String.intercalate ", "
    (ctx.map fun kv => "\x22" ++ kv.1 ++ "\x22: \x22" ++ kv.2 ++ "\x22") ++ "\x7d"

/-- The step prompt built by `_execute_chain`. -/
def chain_step_prompt (step_task : String) (ctx : List (String × String))
    (message : String) : String :=
  "Task: " ++ step_task ++ "\n\nContext from previous steps: " ++ dumpContext ctx ++
    "\n\nOriginal request: " ++ message ++ "\n\nPlease complete this step of the task."

/-- The `for step in steps` loop of `_execute_chain`. Each step evaluates
`ModelTier(step["model"])` (a `ValueError` when the stored short name is not
a member value) and `step["task"]` (a `KeyError` when the step dict has no
such key) before running `_call_claude` on the step prompt. -/
def chain_go (backend : Backend) (tx : ToolExec) (message : String)
    (history : List ChatMsg) :
    List ChainStepDict → ChainAcc → ChainAcc × Option PyErr
  | [], acc => (acc, none)
  | step :: rest, acc =>
    match List.lookup "model" step with
    | none => (acc, some (PyErr.keyError "model"))
    | some mv =>
      match tierOfValue mv with
      | none => (acc, some (PyErr.valueError mv))
      | some step_model =>
        match List.lookup "task" step with
        | none => (acc, some (PyErr.keyError "task"))
        | some step_task =>
          let step_prompt := chain_step_prompt step_task acc.context message
          let step_messages := history ++
            [{ role := "user", content := MContent.text step_prompt }]
          let out := call_claude_from backend tx step_model step_messages 10
            acc.persisted acc.calls
          match out.2 with
          | Except.error e =>
            ({ acc with persisted := out.1.persisted, calls := out.1.calls }, some e)
          | Except.ok r =>
            chain_go backend tx message history rest
              { context := dictSet acc.context step_task r.content,
                total_input := acc.total_input + r.input_tokens,
                total_output := acc.total_output + r.output_tokens,
                all_tool_calls := acc.all_tool_calls ++ r.tool_calls,
                persisted := out.1.persisted,
                calls := out.1.calls }

/-- `ChatHandler._execute_chain`: run the configured steps in order, else
fall back to a single SONNET `_call_claude`; the final result is the
output of the last step, totals are summed across steps. Returns the persisted
messages and the result (or the raised exception). -/
def execute_chain (backend : Backend) (tx : ToolExec) (chain_type : String)
    (message : String) (history : List ChatMsg) (persisted0 : List PersistedMsg) :
    List PersistedMsg × Except PyErr CallResult :=
  match List.lookup chain_type DEFAULT_CHAINS with
  | none =>
    let out := call_claude backend tx ModelTier.SONNET history 10 persisted0
    (out.1.persisted, out.2)
  | some chain_config =>
    let start : ChainAcc :=
      { context := [("original_message", message)], total_input := 0,
        total_output := 0, all_tool_calls := [], persisted := persisted0, calls := 0 }
    match chain_go backend tx message history chain_config.steps start with
    | (acc, some e) => (acc.persisted, Except.error e)
    | (acc, none) =>
      match chain_config.steps.getLast? with
      | none => (acc.persisted, Except.error PyErr.indexError)
      | some last_step =>
        match List.lookup "task" last_step with
        | none => (acc.persisted, Except.error (PyErr.keyError "task"))
        | some k =>
          match List.lookup k acc.context with
          | none => (acc.persisted, Except.error (PyErr.keyError k))
          | some final_content =>
            (acc.persisted,
             Except.ok { content := final_content,
                         model := "chain:" ++ chain_type,
                         tool_calls := acc.all_tool_calls,
                         input_tokens := acc.total_input,
                         output_tokens := acc.total_output })

/-! ## chat.py: ChatHandler.process_message -/

/-- `ChatHandler.get_conversation_history`: the last 50 stored messages in
chronological order, formatted as role/content dicts. -/
def conversation_history (store : List PersistedMsg) : List ChatMsg :=
  (takeLast 50 store).map fun m => { role := m.role, content := MContent.text m.content }

/-- `ChatHandler.process_message`, persistence- and routing-relevant parts:
persist the user turn, load history, select a tier, check for a chain
(`should_use_chain` is called without a task type here), and run the loop or
the chain. Title generation touches no conversation messages and is omitted.
Returns the persisted messages and the response (or the raised exception). -/
def process_message (reMatch : String → String → Bool) (cfg : RoutingCfg)
    (backend : Backend) (tx : ToolExec) (store : List PersistedMsg)
    (message : String) (force_model : Option ModelTier) :
    List PersistedMsg × Except PyErr CallResult :=
  let store1 := store ++
    [{ role := "user", content := message, model_used := none, tool_calls := none }]
  let history := conversation_history store1
  match select_model reMatch cfg message history [] none force_model with
  | Except.error e => (store1, Except.error e)
  | Except.ok selected_model =>
    match should_use_chain cfg message none with
    | some chain_type => execute_chain backend tx chain_type message history store1
    | none =>
      let out := call_claude backend tx selected_model history 10 store1
      (out.1.persisted, out.2)

/-! ## Concrete fixtures used by counterexamples and witnesses -/

/-- A regex oracle under which a pattern matches exactly its own source
string (enough to drive the pattern branches on concrete inputs). -/
def eqMatch : String → String → Bool := fun p s => p == s

/-- A regex oracle under which nothing matches. -/
def noMatch : String → String → Bool := fun _ _ => false

/-- The first component of a select result (`none` when it raised). -/
def resultContent (r : Except PyErr CallResult) : String :=
  match r with
  | Except.ok c => c.content
  | Except.error _ => ""

/-- A backend that always requests one more tool call. -/
def loopingBackend : Backend := fun _ =>
  BackendReply.ok
    { stop_reason := "tool_use",
      content := [MBlock.tool_use "toolu_1" "get_weather" "city=here"],
      usage := { input_tokens := 5, output_tokens := 7 } }

/-- A dispatcher oracle returning a fixed payload. -/
def okTool : ToolExec := fun _ _ => "ok"

/-- A backend that is never consulted (chain fixtures fail before calling). -/
def idleBackend : Backend := fun _ => BackendReply.apiError "unreached"

/-- A backend that answers plainly on the first call. -/
def plainBackend : Backend := fun _ =>
  BackendReply.ok
    { stop_reason := "end_turn",
      content := [MBlock.text "hello there"],
      usage := { input_tokens := 11, output_tokens := 3 } }

/-- A backend that requests a tool once, then answers. -/
def oneToolBackend : Backend := fun i =>
  if i = 0 then
    BackendReply.ok
      { stop_reason := "tool_use",
        content := [MBlock.tool_use "toolu_9" "get_calendar_events" "day=today",
                    MBlock.text "checking"],
        usage := { input_tokens := 21, output_tokens := 9 } }
  else
    BackendReply.ok
      { stop_reason := "end_turn",
        content := [MBlock.text "done"],
        usage := { input_tokens := 13, output_tokens := 4 } }

/-- Configuration whose task routing names a tier unknown to `ModelTier`. -/
def cfg_unknown_tier : RoutingCfg :=
  { default_config with task_routing := [("mytask", "turbo")] }

/-- Speed-biased configuration with a single cheap pattern. -/
def cfg_speed_pattern : RoutingCfg :=
  { default_config with prefer_speed := true, patterns_haiku := ["pingpat"] }

/-- The same configuration with the bias flag off. -/
def cfg_unbiased_pattern : RoutingCfg :=
  { cfg_speed_pattern with prefer_speed := false }

/-- Default configuration with a single custom premium pattern. -/
def cfg_opus_pattern : RoutingCfg :=
  { default_config with patterns_opus := ["gopat"] }

/-- A stored routing row overriding the default model. -/
def row_opus_default : RoutingSettings :=
  { default_settings_row with default_model := some "opus" }

/-- An instance state whose cache was populated at time 0. -/
def stale_state : RCState :=
  { cache := some default_config, cache_time := some 0 }

/-- Eight ledger rows, one per calendar day 0..7, all inside the 7-day
window ending at `now = 648000` (= day 7, 12:00). -/
def db_eight_days : List ModelUsage :=
  (List.range 8).map fun k =>
    { model_tier := "haiku", input_tokens := 1000, output_tokens := 1000,
      task_type := some "chat", latency_ms := none,
      created_at := 43200 + k * 86400 }

/-- An empty-ledger day summary at time 100000 (witness fixture). -/
def empty_day_summary : UsageSummary :=
  summary_of_acc "day" (100000 - 86400) 100000
    { by_model := [], by_task := [], totals_requests := 0, totals_input := 0,
      totals_output := 0, totals_cost := 0, latencies := [] }

/-! ## Derived notions used by the statements -/

/-- Sum of the input-token counts of a batch of ledger records. -/
def natSumIn (l : List LedgerRecord) : Nat := (l.map fun r => r.input_tokens).sum

/-- Sum of the output-token counts of a batch of ledger records. -/
def natSumOut (l : List LedgerRecord) : Nat := (l.map fun r => r.output_tokens).sum

/-- Whether the i-th backend call of a run signals `tool_use`. -/
def isToolUseAt (backend : Backend) (i : Nat) : Bool :=
  match backend i with
  | BackendReply.ok r => r.stop_reason == "tool_use"
  | BackendReply.apiError _ => false

/-- The single assistant turn `_call_claude` persists on normal termination. -/
def assistantTurn (model : ModelTier) (r : CallResult) : PersistedMsg :=
  { role := "assistant", content := r.content, model_used := some model.value,
    tool_calls := if r.tool_calls.isEmpty then none else some r.tool_calls }

/-- The row written by `update_config`. -/
def updated_row (store : Option RoutingSettings)
    (updates : RoutingSettings → RoutingSettings) : RoutingSettings :=
  updates (store.getD default_settings_row)

/-- The loop state passed to the next iteration by the tool-use branch. -/
def toolLoopNext (tx : ToolExec) (model : ModelTier) (resp : BackendResponse)
    (st : LoopState) : LoopState :=
  { current_messages := st.current_messages ++
      [{ role := "assistant",
         content := MContent.blocks (processBlocks tx resp.content).assistant_content },
       { role := "user",
         content := MContent.toolResults (processBlocks tx resp.content).tool_results }],
    all_tool_calls := st.all_tool_calls ++ (processBlocks tx resp.content).tool_calls,
    total_input := st.total_input + resp.usage.input_tokens,
    total_output := st.total_output + resp.usage.output_tokens,
    ledger := st.ledger ++
      [{ tier := model, input_tokens := resp.usage.input_tokens,
         output_tokens := resp.usage.output_tokens, task_type := "chat" }],
    persisted := st.persisted,
    activities := st.activities ++ (processBlocks tx resp.content).activities,
    calls := st.calls + 1 }

/-- The result dict returned by the final-response branch. -/
def finalResult (model : ModelTier) (resp : BackendResponse) (st : LoopState) : CallResult :=
  { content := finalText resp.content, model := model.value,
    tool_calls := st.all_tool_calls,
    input_tokens := st.total_input + resp.usage.input_tokens,
    output_tokens := st.total_output + resp.usage.output_tokens }

/-- The loop state after the final-response branch persists its assistant turn. -/
def finalState (model : ModelTier) (resp : BackendResponse) (st : LoopState) : LoopState :=
  { st with
    total_input := st.total_input + resp.usage.input_tokens,
    total_output := st.total_output + resp.usage.output_tokens,
    ledger := st.ledger ++
      [{ tier := model, input_tokens := resp.usage.input_tokens,
         output_tokens := resp.usage.output_tokens, task_type := "chat" }],
    persisted := st.persisted ++ [assistantTurn model (finalResult model resp st)],
    calls := st.calls + 1 }

/-! ## Helper lemmas -/


theorem except_bind_ok {ε α β : Type} (a : α) (f : α → Except ε β) :
    (bind (Except.ok a) f : Except ε β) = f a := rfl

theorem except_pure_ok {ε α : Type} (a : α) :
    (pure a : Except ε α) = Except.ok a := rfl

theorem except_bind_err {ε α β : Type} (e : ε) (f : α → Except ε β) :
    (bind (Except.error e) f : Except ε β) = Except.error e := rfl

theorem lookup_mem {κ α : Type} [BEq κ] [LawfulBEq κ] {l : List (κ × α)} {k : κ} {v : α}
    (h : List.lookup k l = some v) : (k, v) ∈ l := by
  rcases List.lookup_eq_some_iff.mp h with ⟨l₁, l₂, rfl, -⟩
  exact List.mem_append.mpr (Or.inr (List.mem_cons_self _ _))

theorem natSumIn_append (a b : List LedgerRecord) :
    natSumIn (a ++ b) = natSumIn a + natSumIn b := by
  simp [natSumIn]

theorem natSumOut_append (a b : List LedgerRecord) :
    natSumOut (a ++ b) = natSumOut a + natSumOut b := by
  simp [natSumOut]

theorem call_claude_aux_props (backend : Backend) (tx : ToolExec) (model : ModelTier) :
    ∀ (fuel : Nat) (st : LoopState),
      ((call_claude_aux backend tx model fuel st).1.calls ≤ st.calls + fuel)
      ∧ (∃ d, (call_claude_aux backend tx model fuel st).1.ledger = st.ledger ++ d
          ∧ (call_claude_aux backend tx model fuel st).1.total_input
              = st.total_input + natSumIn d
          ∧ (call_claude_aux backend tx model fuel st).1.total_output
              = st.total_output + natSumOut d)
      ∧ (∀ r, (call_claude_aux backend tx model fuel st).2 = Except.ok r →
          r.input_tokens = (call_claude_aux backend tx model fuel st).1.total_input
          ∧ r.output_tokens = (call_claude_aux backend tx model fuel st).1.total_output
          ∧ r.model = model.value
          ∧ r.tool_calls = (call_claude_aux backend tx model fuel st).1.all_tool_calls)
      ∧ ((∀ i, st.calls ≤ i → i < st.calls + fuel → isToolUseAt backend i = true) →
          (call_claude_aux backend tx model fuel st).2
            = Except.ok { content := fallbackMessage, model := model.value,
                          tool_calls := (call_claude_aux backend tx model fuel st).1.all_tool_calls,
                          input_tokens := (call_claude_aux backend tx model fuel st).1.total_input,
                          output_tokens := (call_claude_aux backend tx model fuel st).1.total_output }
          ∧ (call_claude_aux backend tx model fuel st).1.persisted = st.persisted)
      ∧ (∃ dp, (call_claude_aux backend tx model fuel st).1.persisted = st.persisted ++ dp
          ∧ (dp = [] ∨ ∃ r, (call_claude_aux backend tx model fuel st).2 = Except.ok r
              ∧ dp = [assistantTurn model r]))
      ∧ (∀ e, (call_claude_aux backend tx model fuel st).2 = Except.error e →
          (call_claude_aux backend tx model fuel st).1.persisted = st.persisted) := by
  intro fuel
  induction fuel with
  | zero =>
    intro st
    refine ⟨Nat.le_refl _, ⟨[], by simp [call_claude_aux, natSumIn, natSumOut]⟩, ?_, ?_, ?_, ?_⟩
    · intro r hr
      simp only [call_claude_aux, Except.ok.injEq] at hr ⊢
      subst hr
      exact ⟨rfl, rfl, rfl, rfl⟩
    · intro _
      exact ⟨rfl, rfl⟩
    · exact ⟨[], by simp [call_claude_aux], Or.inl rfl⟩
    · intro e he
      simp [call_claude_aux] at he
  | succ n ih =>
    intro st
    cases hB : backend st.calls with
    | apiError e =>
      have hru : call_claude_aux backend tx model (n+1) st
          = ({ st with
                calls := st.calls + 1,
                activities := st.activities ++ [("error:api", false)] },
             Except.error (PyErr.apiError e)) := by
        simp [call_claude_aux, hB]
      refine ⟨?_, ⟨[], ?_⟩, ?_, ?_, ⟨[], ?_⟩, ?_⟩
      · rw [hru]; simp
      · rw [hru]; simp [natSumIn, natSumOut]
      · intro r hr; rw [hru] at hr; simp at hr
      · intro hall
        exfalso
        have := hall st.calls (Nat.le_refl _) (by omega)
        rw [isToolUseAt, hB] at this
        simp at this
      · rw [hru]; exact ⟨by simp, Or.inl rfl⟩
      · intro e' _; rw [hru]
    | ok resp =>
      by_cases hs : resp.stop_reason == "tool_use"
      · have hru : call_claude_aux backend tx model (n+1) st
            = call_claude_aux backend tx model n (toolLoopNext tx model resp st) := by
          simp [call_claude_aux, hB, hs, toolLoopNext]
        rcases ih (toolLoopNext tx model resp st)
          with ⟨ihc, ⟨d, hd, hdi, hdo⟩, ihok, ihex, ⟨dp, hdp, hdpor⟩, iherr⟩
        have e1 : (toolLoopNext tx model resp st).calls = st.calls + 1 := rfl
        have e3 : (toolLoopNext tx model resp st).total_input
            = st.total_input + resp.usage.input_tokens := rfl
        have e4 : (toolLoopNext tx model resp st).total_output
            = st.total_output + resp.usage.output_tokens := rfl
        have e5 : (toolLoopNext tx model resp st).persisted = st.persisted := rfl
        rw [e1] at ihc ihex
        rw [e3] at hdi
        rw [e4] at hdo
        rw [e5] at ihex hdp iherr
        have e2 : (toolLoopNext tx model resp st).ledger = st.ledger ++
            [{ tier := model, input_tokens := resp.usage.input_tokens,
               output_tokens := resp.usage.output_tokens, task_type := "chat" }] := rfl
        rw [e2] at hd
        rw [hru]
        refine ⟨by omega,
          ⟨{ tier := model, input_tokens := resp.usage.input_tokens,
             output_tokens := resp.usage.output_tokens, task_type := "chat" } :: d, ?_, ?_, ?_⟩,
          ihok, ?_, ⟨dp, hdp, hdpor⟩, iherr⟩
        · rw [hd]; simp
        · rw [hdi]; simp [natSumIn]; omega
        · rw [hdo]; simp [natSumOut]; omega
        · intro hall
          exact ihex fun i h1 h2 => hall i (by omega) (by omega)
      · have hru : call_claude_aux backend tx model (n+1) st
            = (finalState model resp st, Except.ok (finalResult model resp st)) := by
          simp [call_claude_aux, hB, hs, finalState, finalResult, assistantTurn]
        rw [hru]
        refine ⟨?_, ?_, ?_, ?_, ?_, ?_⟩
        · simp [finalState]
        · refine ⟨[{ tier := model, input_tokens := resp.usage.input_tokens,
                     output_tokens := resp.usage.output_tokens, task_type := "chat" }], ?_, ?_, ?_⟩
          · simp [finalState]
          · simp [finalState, natSumIn]
          · simp [finalState, natSumOut]
        · intro r hr
          simp only [Except.ok.injEq] at hr
          subst hr
          exact ⟨rfl, rfl, rfl, rfl⟩
        · intro hall
          exfalso
          have := hall st.calls (Nat.le_refl _) (by omega)
          rw [isToolUseAt, hB] at this
          simp only [hs] at this
          exact Bool.false_ne_true this
        · exact ⟨[assistantTurn model (finalResult model resp st)], by simp [finalState],
            Or.inr ⟨finalResult model resp st, rfl, rfl⟩⟩
        · intro e he
          simp at he

theorem call_claude_aux_final (backend : Backend) (tx : ToolExec) (model : ModelTier) :
    ∀ (fuel : Nat) (st : LoopState) (k : Nat), k < fuel →
      (∀ i, st.calls ≤ i → i < st.calls + k → isToolUseAt backend i = true) →
      ∀ resp, backend (st.calls + k) = BackendReply.ok resp →
      (resp.stop_reason == "tool_use") = false →
      ∃ r, (call_claude_aux backend tx model fuel st).2 = Except.ok r
        ∧ (call_claude_aux backend tx model fuel st).1.persisted
            = st.persisted ++ [assistantTurn model r] := by
  intro fuel
  induction fuel with
  | zero =>
    intro st k hk
    exact absurd hk (Nat.not_lt_zero k)
  | succ n ih =>
    intro st k hk hall resp hresp hns
    cases k with
    | zero =>
      rw [Nat.add_zero] at hresp
      have hru : call_claude_aux backend tx model (n+1) st
          = (finalState model resp st, Except.ok (finalResult model resp st)) := by
        simp [call_claude_aux, hresp, hns, finalState, finalResult, assistantTurn]
      rw [hru]
      exact ⟨finalResult model resp st, rfl, rfl⟩
    | succ k2 =>
      have htu : isToolUseAt backend st.calls = true :=
        hall st.calls (Nat.le_refl _) (by omega)
      cases hB : backend st.calls with
      | apiError e =>
        rw [isToolUseAt, hB] at htu
        simp at htu
      | ok resp0 =>
        have hs : (resp0.stop_reason == "tool_use") = true := by
          have h2 := htu
          rw [isToolUseAt, hB] at h2
          simpa using h2
        have hru : call_claude_aux backend tx model (n+1) st
            = call_claude_aux backend tx model n (toolLoopNext tx model resp0 st) := by
          simp [call_claude_aux, hB, hs, toolLoopNext]
        rw [hru]
        have e1 : (toolLoopNext tx model resp0 st).calls = st.calls + 1 := rfl
        have e5 : (toolLoopNext tx model resp0 st).persisted = st.persisted := rfl
        obtain ⟨r, hr1, hr2⟩ := ih (toolLoopNext tx model resp0 st) k2 (by omega)
          (by intro i h1 h2
              rw [e1] at h1 h2
              exact hall i (by omega) (by omega))
          resp
          (by rw [e1, show st.calls + 1 + k2 = st.calls + (k2 + 1) from by omega]
              exact hresp)
          hns
        rw [e5] at hr2
        exact ⟨r, hr1, hr2⟩

theorem should_use_chain_no_task (cfg : RoutingCfg) (m : String) :
    should_use_chain cfg m none = none := by
  simp [should_use_chain]

/-- Claim C1: for every tier, conversation history and iteration budget, the
orchestration loop makes at most `max_iterations` backend calls; if every call
within the budget asks for tools (so the budget is exhausted without a plain
response) the loop returns the fixed apologetic fallback message; and whenever
it returns normally, the token totals in the result equal the sums of the
per-call token counts it recorded to the Usage Ledger during the run. -/
theorem call_claude_iterations_fallback_and_ledger_totals
    (backend : Backend) (tx : ToolExec) (model : ModelTier)
    (messages : List ChatMsg) (persisted0 : List PersistedMsg) (max_iterations : Nat) :
    (call_claude backend tx model messages max_iterations persisted0).1.calls ≤ max_iterations
    ∧ ((∀ i, i < max_iterations → isToolUseAt backend i = true) →
        (call_claude backend tx model messages max_iterations persisted0).2
          = Except.ok { content := fallbackMessage, model := model.value,
                        tool_calls := (call_claude backend tx model messages max_iterations persisted0).1.all_tool_calls,
                        input_tokens := (call_claude backend tx model messages max_iterations persisted0).1.total_input,
                        output_tokens := (call_claude backend tx model messages max_iterations persisted0).1.total_output })
    ∧ (∀ r, (call_claude backend tx model messages max_iterations persisted0).2 = Except.ok r →
        r.input_tokens = natSumIn (call_claude backend tx model messages max_iterations persisted0).1.ledger
        ∧ r.output_tokens = natSumOut (call_claude backend tx model messages max_iterations persisted0).1.ledger) := by
  have h := call_claude_aux_props backend tx model max_iterations
    { current_messages := messages, all_tool_calls := [], total_input := 0,
      total_output := 0, ledger := [], persisted := persisted0, activities := [], calls := 0 }
  rcases h with ⟨hc, ⟨d, hd, hdi, hdo⟩, hok, hex, -, -⟩
  simp only [call_claude, call_claude_from]
  refine ⟨by simpa using hc, ?_, ?_⟩
  · intro hall
    exact (hex fun i h1 h2 => hall i (by simpa using h2)).1
  · intro r hr
    rcases hok r hr with ⟨h1, h2, -, -⟩
    constructor
    · rw [h1, hdi, hd]; simp
    · rw [h2, hdo, hd]; simp

theorem call_claude_iterations_fallback_witness :
    (∀ i, i < 2 → isToolUseAt loopingBackend i = true)
    ∧ (call_claude loopingBackend okTool ModelTier.SONNET [] 2 []).1.calls ≤ 2
    ∧ (call_claude loopingBackend okTool ModelTier.SONNET [] 2 []).2
        = Except.ok { content := fallbackMessage, model := ModelTier.SONNET.value,
                      tool_calls := (call_claude loopingBackend okTool ModelTier.SONNET [] 2 []).1.all_tool_calls,
                      input_tokens := (call_claude loopingBackend okTool ModelTier.SONNET [] 2 []).1.total_input,
                      output_tokens := (call_claude loopingBackend okTool ModelTier.SONNET [] 2 []).1.total_output } := by
  refine ⟨by decide, ?_, ?_⟩
  · exact (call_claude_iterations_fallback_and_ledger_totals loopingBackend okTool
      ModelTier.SONNET [] [] 2).1
  · exact (call_claude_iterations_fallback_and_ledger_totals loopingBackend okTool
      ModelTier.SONNET [] [] 2).2.1 (by decide)

/-- Claim C2 (code bug): `should_use_chain` does resolve task type
`schedule_optimization` to `analyze_optimize_chain` under the default
configuration, but executing that chain raises
`ValueError` at its first step, because the step dict stores the short model
name `"haiku"` while `ModelTier(...)` expects a full model-id value (and the
step dict has no `"task"` key at all, so `step["task"]` would raise
`KeyError` even with valid model ids). No chain ever runs 2 steps or returns
the output of its second step. -/
theorem analyze_optimize_chain_resolution_and_crash :
    should_use_chain default_config "optimize my schedule" (some "schedule_optimization")
      = some "analyze_optimize_chain"
    ∧ (execute_chain idleBackend okTool "analyze_optimize_chain" "optimize my schedule" [] []).2
      = Except.error (PyErr.valueError "haiku")
    ∧ List.lookup "task" [("model", "haiku"), ("purpose", "gather"),
        ("prompt_template", "gather_schedule_data")] = none :=
  ⟨rfl, rfl, rfl⟩

/-- Claim C9 (amended): `process_message` persists exactly one user-turn
message before the loop starts; the loop persists at most one further message,
and when it does that message is a single assistant turn carrying the final
text and the full tool-call list of the run; intermediate tool round-trips are
never persisted as top-level conversation messages. When the iteration budget
is exhausted (every call requests tools) no assistant turn is persisted at
all, so only the user turn is stored; and conversely, whenever some call
within the budget returns a final non-tool-use response (all earlier calls
requesting tools) and tier selection succeeds, exactly one assistant turn is
persisted, carrying the returned final text, model and tool-call list. -/
theorem process_message_persists_user_once_and_single_assistant
    (reMatch : String → String → Bool) (cfg : RoutingCfg) (backend : Backend)
    (tx : ToolExec) (store : List PersistedMsg) (message : String)
    (force_model : Option ModelTier) :
    (∃ dp, (process_message reMatch cfg backend tx store message force_model).1
        = store ++ [{ role := "user", content := message,
                      model_used := none, tool_calls := none }] ++ dp
      ∧ (dp = []
         ∨ ∃ r m, (process_message reMatch cfg backend tx store message force_model).2
              = Except.ok r
            ∧ dp = [m] ∧ m.role = "assistant" ∧ m.content = r.content
            ∧ m.tool_calls = (if r.tool_calls.isEmpty then none else some r.tool_calls)))
    ∧ ((∀ i, i < 10 → isToolUseAt backend i = true) →
        (process_message reMatch cfg backend tx store message force_model).1
          = store ++ [{ role := "user", content := message,
                        model_used := none, tool_calls := none }])
    ∧ (∀ k, k < 10 → (∀ i, i < k → isToolUseAt backend i = true) →
        ∀ resp, backend k = BackendReply.ok resp →
        (resp.stop_reason == "tool_use") = false →
        ∀ model2, select_model reMatch cfg message
            (conversation_history (store ++ [{ role := "user", content := message, model_used := none, tool_calls := none }])) [] none force_model
            = Except.ok model2 →
        ∃ r, (process_message reMatch cfg backend tx store message force_model).2
            = Except.ok r
          ∧ (process_message reMatch cfg backend tx store message force_model).1
            = store ++ [{ role := "user", content := message, model_used := none, tool_calls := none }]
              ++ [{ role := "assistant", content := r.content,
                    model_used := some r.model,
                    tool_calls := if r.tool_calls.isEmpty then none
                                  else some r.tool_calls }]) := by
  simp only [process_message, should_use_chain_no_task]
  cases hsel : select_model reMatch cfg message
      (conversation_history (store ++ [{ role := "user", content := message, model_used := none, tool_calls := none }])) [] none force_model with
  | error e =>
    refine ⟨⟨[], by simp, Or.inl rfl⟩, fun _ => by simp, ?_⟩
    intro k hk hall resp hresp hns model2 hm
    simp at hm
  | ok model =>
    have h := call_claude_aux_props backend tx model 10
      { current_messages := conversation_history (store ++ [{ role := "user", content := message, model_used := none, tool_calls := none }]),
        all_tool_calls := [], total_input := 0, total_output := 0, ledger := [],
        persisted := store ++ [{ role := "user", content := message, model_used := none, tool_calls := none }],
        activities := [], calls := 0 }
    rcases h with ⟨-, -, hok, hex, ⟨dp, hdp, hdpor⟩, -⟩
    refine ⟨?_, ?_, ?_⟩
    · refine ⟨dp, ?_, ?_⟩
      · simpa [call_claude, call_claude_from] using hdp
      · rcases hdpor with h0 | ⟨r, hr, hdr⟩
        · exact Or.inl h0
        · refine Or.inr ⟨r, assistantTurn model r, ?_, hdr, rfl, rfl, rfl⟩
          simpa [call_claude, call_claude_from] using hr
    · intro hall
      have := (hex fun i h1 h2 => hall i (by simpa using h2)).2
      simpa [call_claude, call_claude_from] using this
    · intro k hk hall resp hresp hns model2 hm
      obtain rfl : model = model2 := by simpa using hm
      obtain ⟨r, hr1, hr2⟩ := call_claude_aux_final backend tx model 10
        { current_messages := conversation_history (store ++ [{ role := "user", content := message, model_used := none, tool_calls := none }]),
          all_tool_calls := [], total_input := 0, total_output := 0, ledger := [],
          persisted := store ++ [{ role := "user", content := message, model_used := none, tool_calls := none }],
          activities := [], calls := 0 }
        k hk (fun i h1 h2 => hall i (by simpa using h2)) resp
        (by simpa using hresp) hns
      have hmodel : r.model = model.value := (hok r hr1).2.2.1
      refine ⟨r, by simpa [call_claude, call_claude_from] using hr1, ?_⟩
      have hp : (call_claude backend tx model
          (conversation_history (store ++ [{ role := "user", content := message, model_used := none, tool_calls := none }])) 10
          (store ++ [{ role := "user", content := message, model_used := none, tool_calls := none }])).1.persisted
          = (store ++ [{ role := "user", content := message, model_used := none, tool_calls := none }]) ++ [assistantTurn model r] := by
        simpa [call_claude, call_claude_from] using hr2
      have hfin : (call_claude backend tx model
          (conversation_history (store ++ [{ role := "user", content := message, model_used := none, tool_calls := none }])) 10
          (store ++ [{ role := "user", content := message, model_used := none, tool_calls := none }])).1.persisted
          = store ++ [{ role := "user", content := message, model_used := none, tool_calls := none }]
            ++ [{ role := "assistant", content := r.content,
                  model_used := some r.model,
                  tool_calls := if r.tool_calls.isEmpty then none
                                else some r.tool_calls }] := by
        rw [hp, assistantTurn, hmodel]
      simpa using hfin

theorem process_message_persistence_witness :
    (∀ i, i < 10 → isToolUseAt loopingBackend i = true)
    ∧ (process_message noMatch default_config loopingBackend okTool [] "hi friend" none).1
        = [{ role := "user", content := "hi friend", model_used := none, tool_calls := none }]
    ∧ (∃ r, (process_message noMatch default_config plainBackend okTool [] "hi friend" none).2
          = Except.ok r
        ∧ (process_message noMatch default_config plainBackend okTool [] "hi friend" none).1
          = [{ role := "user", content := "hi friend", model_used := none, tool_calls := none },
             { role := "assistant", content := r.content, model_used := some r.model,
               tool_calls := if r.tool_calls.isEmpty then none else some r.tool_calls }])
    ∧ ∃ r, (process_message noMatch default_config oneToolBackend okTool [] "hi friend" none).2
          = Except.ok r
        ∧ (process_message noMatch default_config oneToolBackend okTool [] "hi friend" none).1
          = [{ role := "user", content := "hi friend", model_used := none, tool_calls := none },
             { role := "assistant", content := r.content, model_used := some r.model,
               tool_calls := if r.tool_calls.isEmpty then none else some r.tool_calls }] := by
  refine ⟨by decide, ?_, ?_, ?_⟩
  · have h := (process_message_persists_user_once_and_single_assistant noMatch default_config
      loopingBackend okTool [] "hi friend" none).2.1 (by decide)
    simpa using h
  · have h := (process_message_persists_user_once_and_single_assistant noMatch default_config
      plainBackend okTool [] "hi friend" none).2.2 0 (by decide) (by decide)
      { stop_reason := "end_turn", content := [MBlock.text "hello there"],
        usage := { input_tokens := 11, output_tokens := 3 } } rfl rfl
      ModelTier.SONNET rfl
    obtain ⟨r, hr1, hr2⟩ := h
    exact ⟨r, hr1, by simpa using hr2⟩
  · have h := (process_message_persists_user_once_and_single_assistant noMatch default_config
      oneToolBackend okTool [] "hi friend" none).2.2 1 (by decide) (by decide)
      { stop_reason := "end_turn", content := [MBlock.text "done"],
        usage := { input_tokens := 13, output_tokens := 4 } } rfl rfl
      ModelTier.SONNET rfl
    obtain ⟨r, hr1, hr2⟩ := h
    exact ⟨r, hr1, by simpa using hr2⟩

/-- Claim C9 counterexample: with a backend that always requests tools, the
run terminates by exhausting `max_iterations` and returns the fallback
message, yet zero assistant-turn messages are persisted, contradicting the
claim that exactly one assistant turn is persisted on every termination
including exhaustion. -/
theorem process_message_exhaustion_persists_no_assistant :
    ((process_message noMatch default_config loopingBackend okTool [] "hello" none).1.countP
        (fun m => m.role == "assistant")) = 0
    ∧ resultContent (process_message noMatch default_config loopingBackend okTool [] "hello" none).2
        = fallbackMessage :=
  ⟨by decide, rfl⟩

theorem tierFromName_ok {name : String}
    (h : (tierOfName (py_upper name)).isSome = true) :
    ∃ t, tierFromName name = Except.ok t := by
  unfold tierFromName
  cases hx : tierOfName (py_upper name) with
  | some t => exact ⟨t, rfl⟩
  | none => rw [hx] at h; simp at h

theorem taskRouted_mem {cfg : RoutingCfg} {task_type : Option String} {name : String}
    (h : taskRouted cfg task_type = some name) :
    ∃ tt, (tt, name) ∈ cfg.task_routing := by
  unfold taskRouted at h
  cases task_type with
  | none => simp at h
  | some tt =>
    by_cases he : tt.isEmpty
    · simp [he] at h
    · simp [he] at h
      exact ⟨tt, lookup_mem h⟩

theorem select_base_ok {cfg : RoutingCfg} (message : String) (task_type : Option String)
    (tools : List String)
    (htask : ∀ kv ∈ cfg.task_routing, (tierOfName (py_upper kv.2)).isSome = true) :
    ∃ t, select_base cfg message task_type tools = Except.ok t := by
  unfold select_base
  cases htr : taskRouted cfg task_type with
  | some name =>
    obtain ⟨tt, hmem⟩ := taskRouted_mem htr
    exact tierFromName_ok (htask (tt, name) hmem)
  | none =>
    by_cases hte : !tools.isEmpty
    · simp only [hte, if_true]
      cases hrb : route_by_tools tools cfg with
      | some t => exact ⟨t, rfl⟩
      | none => exact ⟨ModelTier.SONNET, rfl⟩
    · simp only [hte, if_false]
      exact ⟨ModelTier.SONNET, rfl⟩

theorem select_with_speed_bias_ok {cfg : RoutingCfg} (message : String)
    (task_type : Option String) (tools : List String)
    (htask : ∀ kv ∈ cfg.task_routing, (tierOfName (py_upper kv.2)).isSome = true) :
    ∃ t, select_with_speed_bias cfg message task_type tools = Except.ok t := by
  obtain ⟨b, hb⟩ := select_base_ok message task_type tools htask
  unfold select_with_speed_bias
  rw [hb, except_bind_ok]
  by_cases h1 : b = ModelTier.OPUS
  · simp only [h1, if_true]
    by_cases h2 : !optContains task_type critical_tasks
    · exact ⟨ModelTier.SONNET, by simp [h2, except_pure_ok]⟩
    · exact ⟨ModelTier.OPUS, by simp [h2, except_pure_ok]⟩
  · exact ⟨b, by simp [h1, except_pure_ok]⟩

theorem select_with_quality_bias_ok {cfg : RoutingCfg} (message : String)
    (task_type : Option String) (tools : List String)
    (htask : ∀ kv ∈ cfg.task_routing, (tierOfName (py_upper kv.2)).isSome = true) :
    ∃ t, select_with_quality_bias cfg message task_type tools = Except.ok t := by
  obtain ⟨b, hb⟩ := select_base_ok message task_type tools htask
  unfold select_with_quality_bias
  rw [hb, except_bind_ok]
  by_cases h1 : b = ModelTier.HAIKU
  · exact ⟨ModelTier.SONNET, by simp [h1, except_pure_ok]⟩
  · by_cases h2 : b = ModelTier.SONNET
    · by_cases h3 : optContains task_type upgrade_tasks
      · exact ⟨ModelTier.OPUS, by simp [h1, h2, h3, except_pure_ok]⟩
      · exact ⟨b, by simp [h1, h2, h3, except_pure_ok]⟩
    · exact ⟨b, by simp [h1, h2, except_pure_ok]⟩

/-- Claim C3 (amended): `select_model` never raises for any message, history,
pending tools, task type and forced tier, provided every tier name stored in
`task_routing` and the `default_model` name a member of the tier enumeration
(case-insensitively). Unrecognized task names and tool names are ignored, but
an unknown tier name is not dropped: it raises `KeyError` when reached. -/
theorem select_model_total_for_known_tiers (reMatch : String → String → Bool)
    (cfg : RoutingCfg) (message : String) (history : List ChatMsg)
    (tools : List String) (task_type : Option String) (force_tier : Option ModelTier)
    (htask : ∀ kv ∈ cfg.task_routing, (tierOfName (py_upper kv.2)).isSome = true)
    (hdef : (tierOfName (py_upper cfg.default_model)).isSome = true) :
    ∃ t, select_model reMatch cfg message history tools task_type force_tier
      = Except.ok t := by
  unfold select_model
  cases force_tier with
  | some t => exact ⟨t, rfl⟩
  | none =>
    by_cases hsp : cfg.prefer_speed
    · simp only [hsp, if_true]
      exact select_with_speed_bias_ok message task_type tools htask
    · simp only [hsp, if_false]
      by_cases hq : cfg.prefer_quality
      · simp only [hq, if_true]
        exact select_with_quality_bias_ok message task_type tools htask
      · simp only [hq, if_false]
        cases htr : taskRouted cfg task_type with
        | some name =>
          obtain ⟨tt, hmem⟩ := taskRouted_mem htr
          exact tierFromName_ok (htask (tt, name) hmem)
        | none =>
          cases hrb : (if !tools.isEmpty then route_by_tools tools cfg else none) with
          | some t => exact ⟨t, rfl⟩
          | none =>
            by_cases hop : cfg.patterns_opus.any
                (fun p => reMatch p (py_strip (py_lower message)))
            · exact ⟨ModelTier.OPUS, by simp [hop]⟩
            · by_cases hha : cfg.patterns_haiku.any
                  (fun p => reMatch p (py_strip (py_lower message)))
              · exact ⟨ModelTier.HAIKU, by simp [hop, hha]⟩
              · by_cases hes : !history.isEmpty && should_escalate reMatch history
                · exact ⟨ModelTier.OPUS, by simp [hop, hha, hes]⟩
                · obtain ⟨t, ht⟩ := tierFromName_ok hdef
                  exact ⟨t, by simp [hop, hha, hes, ht]⟩

theorem select_model_total_for_known_tiers_witness :
    (∀ kv ∈ default_config.task_routing, (tierOfName (py_upper kv.2)).isSome = true)
    ∧ (tierOfName (py_upper default_config.default_model)).isSome = true
    ∧ ∃ t, select_model noMatch default_config "whatever" [] [] (some "greeting") none
        = Except.ok t := by
  refine ⟨by decide, by decide, ?_⟩
  exact select_model_total_for_known_tiers noMatch default_config "whatever" [] []
    (some "greeting") none (by decide) (by decide)

/-- Claim C3 counterexample: a configuration whose task routing maps a task
to the unknown tier name `turbo` makes `select_model` raise `KeyError` for
that task type instead of ignoring the entry or falling back to the
default. -/
theorem select_model_unknown_tier_keyerror :
    select_model eqMatch cfg_unknown_tier "hi" [] [] (some "mytask") none
      = Except.error (PyErr.keyError "TURBO") := rfl

/-- Claim C4 counterexample: under the speed-bias flag the selection does not
equal the downgraded unbiased tier. A message matching a configured cheap
pattern selects HAIKU without the flag; the claim therefore requires HAIKU
with the flag as well (HAIKU is not premium, so the downgrade leaves it), but
the code returns SONNET because the biased path never evaluates patterns. -/
theorem speed_bias_skips_pattern_stage :
    select_model eqMatch cfg_unbiased_pattern "pingpat" [] [] none none
      = Except.ok ModelTier.HAIKU
    ∧ select_model eqMatch cfg_speed_pattern "pingpat" [] [] none none
      = Except.ok ModelTier.SONNET
    ∧ cfg_speed_pattern = { cfg_unbiased_pattern with prefer_speed := true } :=
  ⟨rfl, rfl, rfl⟩

/-- Claim C4 (amended): with the speed-bias flag set and no forced tier,
`select_model` returns exactly `_select_with_speed_bias`, which computes its
base tier from task routing and tool routing only, falling back to SONNET --
ignoring the message, the pattern lists, the history-escalation stage and the
configured default tier -- and then downgrades a premium base to SONNET
unless the task type is in the fixed critical allow-list. -/
theorem select_model_speed_bias_behaviour (reMatch reMatch2 : String → String → Bool)
    (cfg : RoutingCfg) (message message2 : String) (history history2 : List ChatMsg)
    (tools : List String) (task_type : Option String)
    (hs : cfg.prefer_speed = true) :
    select_model reMatch cfg message history tools task_type none
      = select_with_speed_bias cfg message task_type tools
    ∧ select_model reMatch cfg message history tools task_type none
      = select_model reMatch2 cfg message2 history2 tools task_type none
    ∧ (∀ b, select_base cfg message task_type tools = Except.ok b →
        select_model reMatch cfg message history tools task_type none
          = Except.ok (if b = ModelTier.OPUS ∧ optContains task_type critical_tasks = false
                       then ModelTier.SONNET else b))
    ∧ (∀ e, select_base cfg message task_type tools = Except.error e →
        select_model reMatch cfg message history tools task_type none = Except.error e) := by
  have hmain : ∀ (rm : String → String → Bool) (msg : String) (hist : List ChatMsg),
      select_model rm cfg msg hist tools task_type none
        = select_with_speed_bias cfg msg task_type tools := by
    intro rm msg hist
    simp [select_model, hs]
  have hbase_irrel : ∀ msg msg2, select_with_speed_bias cfg msg task_type tools
      = select_with_speed_bias cfg msg2 task_type tools := fun _ _ => rfl
  refine ⟨hmain reMatch message history, ?_, ?_, ?_⟩
  · rw [hmain reMatch message history, hmain reMatch2 message2 history2]
    exact hbase_irrel message message2
  · intro b hb
    rw [hmain reMatch message history]
    unfold select_with_speed_bias
    rw [hb, except_bind_ok]
    by_cases h1 : b = ModelTier.OPUS
    · by_cases h2 : optContains task_type critical_tasks
      · simp [h1, h2, except_pure_ok]
      · simp [h1, h2, except_pure_ok]
    · simp [h1, except_pure_ok]
  · intro e he
    rw [hmain reMatch message history]
    unfold select_with_speed_bias
    rw [he]
    rfl

theorem select_model_speed_bias_behaviour_witness :
    cfg_speed_pattern.prefer_speed = true
    ∧ select_base cfg_speed_pattern "pingpat" none [] = Except.ok ModelTier.SONNET
    ∧ select_model eqMatch cfg_speed_pattern "pingpat" [] [] none none
        = Except.ok ModelTier.SONNET := by
  refine ⟨rfl, rfl, ?_⟩
  have h := (select_model_speed_bias_behaviour eqMatch noMatch cfg_speed_pattern
    "pingpat" "x" [] [] [] none rfl).2.2.1 ModelTier.SONNET rfl
  simpa using h

/-- Claim C5 counterexample: a message matching a configured premium pattern
does not always select the premium tier: task routing runs first, so the same
message with task type `greeting` selects HAIKU. -/
theorem premium_pattern_beaten_by_task_routing :
    cfg_opus_pattern.patterns_opus.any
        (fun p => eqMatch p (py_strip (py_lower "gopat"))) = true
    ∧ select_model eqMatch cfg_opus_pattern "gopat" [] [] (some "greeting") none
        = Except.ok ModelTier.HAIKU :=
  ⟨rfl, rfl⟩

/-- Claim C5 (amended): a message matching at least one configured premium
pattern selects the premium tier provided no forced tier is supplied, neither
bias flag is set, the task type is absent or unknown to `task_routing`, and
the pending tools do not route to any tier. Task routing, bias flags and tool
routing all precede the pattern stage and can override it. -/
theorem select_model_premium_pattern_wins (reMatch : String → String → Bool)
    (cfg : RoutingCfg) (message : String) (history : List ChatMsg)
    (tools : List String) (task_type : Option String)
    (hspeed : cfg.prefer_speed = false) (hqual : cfg.prefer_quality = false)
    (htask : taskRouted cfg task_type = none)
    (htools : (if !tools.isEmpty then route_by_tools tools cfg else none) = none)
    (hmatch : cfg.patterns_opus.any
        (fun p => reMatch p (py_strip (py_lower message))) = true) :
    select_model reMatch cfg message history tools task_type none
      = Except.ok ModelTier.OPUS := by
  have htools2 : (if tools = [] then none else route_by_tools tools cfg) = none := by
    rcases tools with _ | ⟨a, l⟩
    · simp
    · simpa using htools
  simp [select_model, hspeed, hqual, htask, htools2, hmatch]

theorem select_model_premium_pattern_wins_witness :
    cfg_opus_pattern.patterns_opus.any
        (fun p => eqMatch p (py_strip (py_lower "gopat"))) = true
    ∧ select_model eqMatch cfg_opus_pattern "gopat" [] [] none none
        = Except.ok ModelTier.OPUS := by
  refine ⟨rfl, ?_⟩
  exact select_model_premium_pattern_wins eqMatch cfg_opus_pattern "gopat" [] [] none
    rfl rfl rfl rfl rfl

/-- Claim C6 counterexample: the synchronous `get_config` used by tier
selection serves the cached configuration regardless of its age: with a cache
populated at time 0 and more than the 5-minute TTL elapsed, it still returns
the cached defaults unchanged and performs no re-fetch, while an asynchronous
read at the same moment would re-fetch and see the stored override. -/
theorem config_cache_sync_ignores_ttl :
    cacheTtl ≤ 1000 - 0
    ∧ (get_config stale_state).1 = default_config
    ∧ (get_config stale_state).2 = stale_state
    ∧ (get_config stale_state).1.default_model = "sonnet"
    ∧ (get_config_async (some row_opus_default) 1000 stale_state).1.default_model = "opus" :=
  ⟨by decide, rfl, rfl, rfl, rfl⟩

/-- Claim C6 (amended): the asynchronous configuration read never serves the
cache past its TTL -- whenever the cache is absent, timeless, or at least
`cacheTtl` old it re-fetches the merged configuration from the store and
restamps the cache -- and a configuration update writes the row, invalidates
the cache and re-reads, so both the very next synchronous read and the very
next asynchronous read return the updated merged values. The synchronous read
path, however, honours no TTL (see the counterexample). -/
theorem config_async_ttl_and_update_invalidation
    (store : Option RoutingSettings) (now : Nat) (st : RCState)
    (updates : RoutingSettings → RoutingSettings) :
    ((st.cache = none ∨ st.cache_time = none
        ∨ ∃ t, st.cache_time = some t ∧ cacheTtl ≤ now - t) →
      get_config_async store now st
        = (config_of_store store,
           { cache := some (config_of_store store), cache_time := some now }))
    ∧ (update_config store updates now st).1 = some (updated_row store updates)
    ∧ (update_config store updates now st).2.1
        = config_of_store (some (updated_row store updates))
    ∧ (get_config (update_config store updates now st).2.2).1
        = config_of_store (some (updated_row store updates))
    ∧ (get_config_async (some (updated_row store updates)) now
          (update_config store updates now st).2.2).1
        = config_of_store (some (updated_row store updates)) := by
  refine ⟨?_, rfl, rfl, rfl, ?_⟩
  · intro h
    cases hc : st.cache with
    | none => simp [get_config_async, hc, fetch_config]
    | some c =>
      cases ht : st.cache_time with
      | none => simp [get_config_async, hc, ht, fetch_config]
      | some t =>
        rcases h with h1 | h2 | ⟨t2, ht2, hle⟩
        · rw [hc] at h1; cases h1
        · rw [ht] at h2; cases h2
        · rw [ht] at ht2
          obtain rfl : t = t2 := Option.some.inj ht2
          have hnl : ¬ (now - t < cacheTtl) := by omega
          simp [get_config_async, hc, ht, hnl, fetch_config]
  · show (get_config_async _ now _).1 = _
    have : (update_config store updates now st).2.2
        = { cache := some (config_of_store (some (updated_row store updates))),
            cache_time := some now } := rfl
    rw [this]
    simp [get_config_async, Nat.sub_self, cacheTtl]

theorem config_async_ttl_and_update_invalidation_witness :
    get_config_async none 1000 stale_state
      = (default_config, { cache := some default_config, cache_time := some 1000 })
    ∧ (update_config (some row_opus_default) id 1000 stale_state).2.1.default_model
        = "opus" := by
  constructor
  · exact (config_async_ttl_and_update_invalidation none 1000 stale_state id).1
      (Or.inr (Or.inr ⟨0, rfl, by decide⟩))
  · have h := (config_async_ttl_and_update_invalidation (some row_opus_default)
      1000 stale_state id).2.2.1
    rw [h]
    rfl

theorem tier_name_roundtrip (t : ModelTier) :
    tierOfName (py_upper (py_lower t.pyName)) = some t := by
  cases t <;> rfl

theorem summarize_day_after_append (db : List ModelUsage) (u : ModelUsage)
    (now : Nat) (s : UsageSummary) (tier : ModelTier)
    (hu : u.created_at = now)
    (htier : tierOfName (py_upper u.model_tier) = some tier)
    (h : get_usage_summary db "day" now = Except.ok s) :
    ∃ s2, get_usage_summary (db ++ [u]) "day" now = Except.ok s2
      ∧ s2.totals.requests = s.totals.requests + 1
      ∧ s2.totals.cost = s.totals.cost
          + calculate_cost tier u.input_tokens u.output_tokens := by
  simp only [get_usage_summary] at h ⊢
  rw [List.filter_append]
  have hu1 : List.filter (fun v => decide (period_start "day" now ≤ v.created_at)) [u]
      = [u] := by
    simp [period_start, hu, Nat.sub_le]
  rw [hu1, List.foldlM_append]
  cases hacc : List.foldlM summary_step
      { by_model := [], by_task := [], totals_requests := 0, totals_input := 0,
        totals_output := 0, totals_cost := 0, latencies := [] }
      (List.filter (fun v => decide (period_start "day" now ≤ v.created_at)) db) with
  | error e =>
    rw [hacc] at h
    simp [Except.map] at h
  | ok acc =>
    rw [hacc] at h
    simp only [Except.map, Except.ok.injEq] at h
    rw [except_bind_ok]
    simp only [List.foldlM_cons, List.foldlM_nil, summary_step, htier]
    rw [except_bind_ok]
    refine ⟨_, rfl, ?_, ?_⟩
    · rw [← h]; rfl
    · rw [← h]; rfl

/-- Claim C7: the cost attributed to a usage record equals
input/1000 times the input price of the tier plus output/1000 times the output
price; a record followed immediately by a day-period summary is reflected in
`totals.requests` (incremented by one) and `totals.cost` (increased by exactly
that cost); and 1000 input plus 1000 output tokens on the cheapest tier cost
exactly 0.0015. -/
theorem record_then_summarize_day_reflects_cost
    (db : List ModelUsage) (tier : ModelTier) (i o : Nat) (tt : Option String)
    (now : Nat) (s : UsageSummary)
    (h : get_usage_summary db "day" now = Except.ok s) :
    (∃ s2, get_usage_summary (record_usage db tier i o tt now) "day" now = Except.ok s2
       ∧ s2.totals.requests = s.totals.requests + 1
       ∧ s2.totals.cost = s.totals.cost + calculate_cost tier i o)
    ∧ calculate_cost tier i o
        = ((i : ℚ) / 1000) * (COSTS tier).1 + ((o : ℚ) / 1000) * (COSTS tier).2
    ∧ calculate_cost ModelTier.HAIKU 1000 1000 = (0.0015 : ℚ) := by
  refine ⟨?_, rfl, by norm_num [calculate_cost, COSTS]⟩
  exact summarize_day_after_append db
    { model_tier := py_lower tier.pyName, input_tokens := i, output_tokens := o,
      task_type := tt, latency_ms := none, created_at := now }
    now s tier rfl (tier_name_roundtrip tier) h

theorem record_then_summarize_day_reflects_cost_witness :
    get_usage_summary [] "day" 100000 = Except.ok empty_day_summary
    ∧ ∃ s2, get_usage_summary (record_usage [] ModelTier.HAIKU 1000 1000 (some "chat") 100000)
          "day" 100000 = Except.ok s2
        ∧ s2.totals.requests = empty_day_summary.totals.requests + 1
        ∧ s2.totals.cost = empty_day_summary.totals.cost
            + calculate_cost ModelTier.HAIKU 1000 1000 := by
  refine ⟨rfl, ?_⟩
  exact (record_then_summarize_day_reflects_cost [] ModelTier.HAIKU 1000 1000
    (some "chat") 100000 empty_day_summary rfl).1

/-- Claim C10: for every period string other than day, week or month,
`get_usage_summary` does not raise and computes exactly the day-window
aggregation, the only difference from the day summary being the echoed
period field. -/
theorem summary_unknown_period_defaults_to_day (db : List ModelUsage) (p : String)
    (now : Nat) (h1 : p ≠ "day") (h2 : p ≠ "week") (h3 : p ≠ "month") :
    get_usage_summary db p now
      = (get_usage_summary db "day" now).map (fun s => { s with period := p }) := by
  have hb1 : (p == "day") = false := by simp [h1]
  have hb2 : (p == "week") = false := by simp [h2]
  have hb3 : (p == "month") = false := by simp [h3]
  have hps : period_start p now = period_start "day" now := by
    simp [period_start, hb1, hb2, hb3]
  simp only [get_usage_summary, hps]
  cases hf : List.foldlM summary_step
      { by_model := [], by_task := [], totals_requests := 0, totals_input := 0,
        totals_output := 0, totals_cost := 0, latencies := [] }
      (List.filter (fun v => decide (period_start "day" now ≤ v.created_at)) db) with
  | error e => simp [Except.map]
  | ok acc => simp [Except.map, summary_of_acc]

theorem summary_unknown_period_defaults_to_day_witness :
    get_usage_summary db_eight_days "year" 648000
      = (get_usage_summary db_eight_days "day" 648000).map
          (fun s => { s with period := "year" }) :=
  summary_unknown_period_defaults_to_day db_eight_days "year" 648000
    (by decide) (by decide) (by decide)

theorem daily_add_date (e : DailyEntry) (tier : ModelTier) (c : ℚ) :
    (daily_add e tier c).date = e.date := by
  cases tier <;> rfl

theorem lookup_none_not_mem_fst {κ α : Type} [BEq κ] [LawfulBEq κ]
    {l : List (κ × α)} {k : κ} (h : List.lookup k l = none) :
    k ∉ l.map Prod.fst := by
  intro hk
  rcases List.mem_map.mp hk with ⟨p, hp, hpk⟩
  have h2 := List.lookup_eq_none_iff.mp h p hp
  rw [hpk] at h2
  simp at h2

theorem mem_fst_exists {κ α : Type} {l : List (κ × α)} {k : κ}
    (h : k ∈ l.map Prod.fst) : ∃ p ∈ l, p.1 = k := by
  rcases List.mem_map.mp h with ⟨p, hp, hpk⟩
  exact ⟨p, hp, hpk⟩

theorem dictSet_map_fst {κ α : Type} [BEq κ] [LawfulBEq κ] :
    ∀ (l : List (κ × α)) (k : κ) (v v' : α),
      List.lookup k l = some v' → (dictSet l k v).map Prod.fst = l.map Prod.fst
  | [], k, v, v', h => by simp at h
  | (k1, v1) :: rest, k, v, v', h => by
    by_cases hk : k1 = k
    · subst hk
      simp [dictSet]
    · have h1 : (k1 == k) = false := beq_eq_false_iff_ne.mpr hk
      have h2 : (k == k1) = false := beq_eq_false_iff_ne.mpr (Ne.symm hk)
      rw [List.lookup_cons, h2] at h
      simp only [dictSet, h1, Bool.false_eq_true, if_false, List.map_cons]
      rw [dictSet_map_fst rest k v v' h]

theorem mem_dictSet {κ α : Type} [BEq κ] :
    ∀ {l : List (κ × α)} {k : κ} {v : α} {p : κ × α},
      p ∈ dictSet l k v → p = (k, v) ∨ p ∈ l := by
  intro l
  induction l with
  | nil =>
    intro k v p hp
    simp [dictSet] at hp
    exact Or.inl hp
  | cons q rest ih =>
    intro k v p hp
    obtain ⟨k1, v1⟩ := q
    by_cases hk : (k1 == k) = true
    · simp only [dictSet, hk, if_true] at hp
      rcases List.mem_cons.mp hp with h | h
      · exact Or.inl h
      · exact Or.inr (List.mem_cons_of_mem _ h)
    · simp only [dictSet, hk, Bool.false_eq_true, if_false] at hp
      rcases List.mem_cons.mp hp with h | h
      · exact Or.inr (h ▸ List.mem_cons_self _ _)
      · rcases ih h with h2 | h2
        · exact Or.inl h2
        · exact Or.inr (List.mem_cons_of_mem _ h2)

theorem daily_fold_props :
    ∀ (us : List ModelUsage) (acc acc' : List (Nat × DailyEntry)),
      List.foldlM daily_step acc us = Except.ok acc' →
      (∀ p ∈ acc, p.2.date = p.1) →
      ((acc.map Prod.fst).Nodup → (acc'.map Prod.fst).Nodup)
      ∧ (∀ p ∈ acc', p.1 ∈ acc.map Prod.fst ∨ ∃ u ∈ us, dateOf u.created_at = p.1)
      ∧ (∀ u ∈ us, ∃ p ∈ acc', p.1 = dateOf u.created_at)
      ∧ (∀ k ∈ acc.map Prod.fst, k ∈ acc'.map Prod.fst)
      ∧ (∀ p ∈ acc', p.2.date = p.1)
  | [], acc, acc', h, hdates => by
    simp only [List.foldlM_nil] at h
    have : acc = acc' := by
      have h2 : (pure acc : Except PyErr _) = Except.ok acc' := h
      simpa [except_pure_ok] using h2
    subst this
    exact ⟨id, fun p hp => Or.inl (List.mem_map_of_mem _ hp), by simp,
      fun k hk => hk, hdates⟩
  | u :: rest, acc, acc', h, hdates => by
    rw [List.foldlM_cons] at h
    cases ht : tierOfName (py_upper u.model_tier) with
    | none =>
      rw [show daily_step acc u = Except.error (PyErr.keyError (py_upper u.model_tier))
        from by simp [daily_step, ht], except_bind_err] at h
      simp at h
    | some tier =>
      cases hl : List.lookup (dateOf u.created_at) acc with
      | none =>
        have hstep : daily_step acc u = Except.ok (acc ++
            [(dateOf u.created_at,
              daily_add { date := dateOf u.created_at, haiku := 0, sonnet := 0,
                          opus := 0, total := 0 } tier
                (calculate_cost tier u.input_tokens u.output_tokens))]) := by
          simp [daily_step, ht, hl]
        rw [hstep, except_bind_ok] at h
        have hdates2 : ∀ p ∈ acc ++
            [(dateOf u.created_at,
              daily_add { date := dateOf u.created_at, haiku := 0, sonnet := 0,
                          opus := 0, total := 0 } tier
                (calculate_cost tier u.input_tokens u.output_tokens))],
            p.2.date = p.1 := by
          intro p hp
          rcases List.mem_append.mp hp with h2 | h2
          · exact hdates p h2
          · rcases List.mem_singleton.mp h2 with rfl
            rw [daily_add_date]
        obtain ⟨ih1, ih2, ih3, ih4, ih5⟩ := daily_fold_props rest _ acc' h hdates2
        have hkeys : (acc ++
            [(dateOf u.created_at,
              daily_add { date := dateOf u.created_at, haiku := 0, sonnet := 0,
                          opus := 0, total := 0 } tier
                (calculate_cost tier u.input_tokens u.output_tokens))]).map Prod.fst
            = acc.map Prod.fst ++ [dateOf u.created_at] := by
          rw [List.map_append]; rfl
        refine ⟨?_, ?_, ?_, ?_, ih5⟩
        · intro hnd
          apply ih1
          rw [hkeys]
          have hnotin := lookup_none_not_mem_fst hl
          simp [List.nodup_append, hnd, hnotin]
        · intro p hp
          rcases ih2 p hp with h2 | ⟨u2, hu2, hd2⟩
          · rw [hkeys] at h2
            rcases List.mem_append.mp h2 with h3 | h3
            · exact Or.inl h3
            · exact Or.inr ⟨u, List.mem_cons_self _ _,
                (List.mem_singleton.mp h3).symm⟩
          · exact Or.inr ⟨u2, List.mem_cons_of_mem _ hu2, hd2⟩
        · intro u2 hu2
          rcases List.mem_cons.mp hu2 with rfl | h2
          · have : dateOf u2.created_at ∈ (acc.map Prod.fst ++ [dateOf u2.created_at]) :=
              List.mem_append.mpr (Or.inr (List.mem_singleton.mpr rfl))
            rw [← hkeys] at this
            exact mem_fst_exists (ih4 _ this)
          · exact ih3 u2 h2
        · intro k hk
          apply ih4
          rw [hkeys]
          exact List.mem_append.mpr (Or.inl hk)
      | some e0 =>
        have hstep : daily_step acc u = Except.ok (dictSet acc (dateOf u.created_at)
            (daily_add e0 tier (calculate_cost tier u.input_tokens u.output_tokens))) := by
          simp [daily_step, ht, hl]
        rw [hstep, except_bind_ok] at h
        have he0 : e0.date = dateOf u.created_at := hdates _ (lookup_mem hl)
        have hdates2 : ∀ p ∈ dictSet acc (dateOf u.created_at)
            (daily_add e0 tier (calculate_cost tier u.input_tokens u.output_tokens)),
            p.2.date = p.1 := by
          intro p hp
          rcases mem_dictSet hp with rfl | h2
          · rw [daily_add_date]; exact he0
          · exact hdates p h2
        obtain ⟨ih1, ih2, ih3, ih4, ih5⟩ := daily_fold_props rest _ acc' h hdates2
        have hkeys := dictSet_map_fst acc (dateOf u.created_at)
          (daily_add e0 tier (calculate_cost tier u.input_tokens u.output_tokens)) e0 hl
        rw [hkeys] at ih1 ih2 ih4
        refine ⟨ih1, ?_, ?_, ih4, ih5⟩
        · intro p hp
          rcases ih2 p hp with h2 | ⟨u2, hu2, hd2⟩
          · exact Or.inl h2
          · exact Or.inr ⟨u2, List.mem_cons_of_mem _ hu2, hd2⟩
        · intro u2 hu2
          rcases List.mem_cons.mp hu2 with rfl | h2
          · have : dateOf u2.created_at ∈ acc.map Prod.fst :=
              List.mem_map_of_mem _ (lookup_mem hl)
            exact mem_fst_exists (ih4 _ this)
          · exact ih3 u2 h2

theorem dateOf_window (days now : Nat) :
    dateOf now + 1 - dateOf (now - days * secondsPerDay) ≤ days + 1 := by
  by_cases h : days * secondsPerDay ≤ now
  · have h2 : (now - days * secondsPerDay) + days * secondsPerDay = now :=
      Nat.sub_add_cancel h
    have h3 : now / secondsPerDay
        = (now - days * secondsPerDay) / secondsPerDay + days := by
      conv_lhs => rw [← h2]
      rw [Nat.add_mul_div_right _ _ (by norm_num [secondsPerDay])]
    unfold dateOf
    omega
  · have h1 : now - days * secondsPerDay = 0 := by omega
    have hlt : now < days * secondsPerDay := by omega
    have h2 : now / secondsPerDay < days :=
      (Nat.div_lt_iff_lt_mul (by norm_num [secondsPerDay])).mpr hlt
    unfold dateOf
    rw [h1, Nat.zero_div]
    omega

theorem pairwise_lt_of_sorted_nodup :
    ∀ (l : List DailyEntry), l.Pairwise daily_le →
      l.Pairwise (fun a b => a.date ≠ b.date) →
      l.Pairwise (fun a b => a.date < b.date)
  | [], _, _ => List.Pairwise.nil
  | a :: t, hs, hn => by
    rcases List.pairwise_cons.mp hs with ⟨ha, ht⟩
    rcases List.pairwise_cons.mp hn with ⟨hna, hnt⟩
    exact List.pairwise_cons.mpr
      ⟨fun b hb => Nat.lt_of_le_of_ne (ha b hb) (hna b hb),
       pairwise_lt_of_sorted_nodup t ht hnt⟩

/-- Claim C8 (amended): for records whose timestamps do not lie in the
future, `get_daily_costs` over a `days`-day window returns at most `days + 1`
entries (not `days`: the window cut-off falls mid-day, so one extra calendar
date fits), the entries are strictly ordered by ascending date with no
duplicate dates, and each entry corresponds exactly to a calendar date of an
in-window record: bucketing is by the calendar date of the timestamp, not by
a rolling 24-hour window. -/
theorem get_daily_costs_props (db : List ModelUsage) (days now : Nat)
    (l : List DailyEntry)
    (hpast : ∀ u ∈ db, u.created_at ≤ now)
    (h : get_daily_costs db days now = Except.ok l) :
    l.length ≤ days + 1
    ∧ List.Pairwise (fun a b => a.date < b.date) l
    ∧ (∀ e ∈ l, ∃ u ∈ db, now - days * secondsPerDay ≤ u.created_at
        ∧ dateOf u.created_at = e.date)
    ∧ (∀ u ∈ db, now - days * secondsPerDay ≤ u.created_at →
        ∃ e ∈ l, e.date = dateOf u.created_at) := by
  simp only [get_daily_costs] at h
  cases hf : List.foldlM daily_step []
      (List.filter (fun u => decide (now - days * secondsPerDay ≤ u.created_at)) db) with
  | error e =>
    rw [hf] at h
    simp [Except.map] at h
  | ok daily =>
    rw [hf] at h
    simp only [Except.map, Except.ok.injEq] at h
    obtain ⟨ih1, ih2, ih3, ih4, ih5⟩ := daily_fold_props _ [] daily hf (by simp)
    have hkeysnodup : (daily.map Prod.fst).Nodup := ih1 (by simp)
    have hperm : l.Perm (daily.map Prod.snd) := by
      rw [← h]
      exact List.perm_insertionSort daily_le _
    have hvdates : (daily.map Prod.snd).map (fun e => e.date) = daily.map Prod.fst := by
      rw [List.map_map]
      exact List.map_congr_left fun p hp => ih5 p hp
    have hldatesnodup : (l.map (fun e => e.date)).Nodup := by
      have := hkeysnodup
      rw [← hvdates] at this
      exact ((hperm.map (fun e => e.date)).nodup_iff).mpr this
    have hsorted : l.Pairwise daily_le := by
      rw [← h]
      exact List.sorted_insertionSort daily_le _
    have hmeml : ∀ e, e ∈ l ↔ e ∈ daily.map Prod.snd := fun e => hperm.mem_iff
    have hentry : ∀ e ∈ l, ∃ u ∈ db,
        now - days * secondsPerDay ≤ u.created_at ∧ dateOf u.created_at = e.date := by
      intro e he
      rcases List.mem_map.mp ((hmeml e).mp he) with ⟨p, hp, hpe⟩
      rcases ih2 p hp with h2 | ⟨u, hu, hd⟩
      · simp at h2
      · rcases List.mem_filter.mp hu with ⟨hudb, hup⟩
        refine ⟨u, hudb, by simpa using hup, ?_⟩
        rw [hd, ← hpe]
        exact (ih5 p hp).symm
    refine ⟨?_, ?_, hentry, ?_⟩
    · have hbound : ∀ x ∈ l.map (fun e => e.date),
          x ∈ Finset.Icc (dateOf (now - days * secondsPerDay)) (dateOf now) := by
        intro x hx
        rcases List.mem_map.mp hx with ⟨e, hel, hex⟩
        rcases hentry e hel with ⟨u, hudb, hge, hdate⟩
        rw [Finset.mem_Icc, ← hex, ← hdate]
        constructor
        · exact Nat.div_le_div_right hge
        · exact Nat.div_le_div_right (hpast u hudb)
      have hlen : l.length ≤ (Finset.Icc (dateOf (now - days * secondsPerDay))
          (dateOf now)).card := by
        rw [← List.length_map l (fun e => e.date),
          ← List.toFinset_card_of_nodup hldatesnodup]
        apply Finset.card_le_card
        intro x hx
        exact hbound x (List.mem_toFinset.mp hx)
      rw [Nat.card_Icc] at hlen
      have hw := dateOf_window days now
      omega
    · apply pairwise_lt_of_sorted_nodup l hsorted
      have := hldatesnodup
      rw [List.Nodup] at this
      exact List.pairwise_map.mp this
    · intro u hudb hge
      have hu : u ∈ List.filter
          (fun v => decide (now - days * secondsPerDay ≤ v.created_at)) db :=
        List.mem_filter.mpr ⟨hudb, by simpa using hge⟩
      rcases ih3 u hu with ⟨p, hp, hpk⟩
      refine ⟨p.2, (hmeml p.2).mpr (List.mem_map_of_mem _ hp), ?_⟩
      rw [ih5 p hp, hpk]

theorem get_daily_costs_props_witness :
    get_daily_costs [] 7 648000 = Except.ok []
    ∧ ([] : List DailyEntry).length ≤ 7 + 1 := by
  refine ⟨rfl, ?_⟩
  exact (get_daily_costs_props [] 7 648000 [] (by simp) rfl).1

/-- Claim C8 counterexample: eight records on eight consecutive calendar
dates all fall inside the 7-day window ending at mid-day of day 7, so
`get_daily_costs` with `days = 7` returns 8 entries, refuting the claim of at
most 7. -/
theorem daily_costs_seven_days_eight_entries :
    db_eight_days.all (fun u => decide (u.created_at ≤ 648000)) = true
    ∧ dailyLen (get_daily_costs db_eight_days 7 648000) = 8 :=
  ⟨by decide, by decide⟩
